import Mathlib

/-!
Announcement API (`anuncios.js`): single-active rule and image file lifecycle.

A shallow embedding of the request handlers of `anuncios.js` and of the helpers
they call, followed by theorems about them.

Modelling conventions.

* A JavaScript value is a `JsVal`.  Numbers are integers (the handlers only ever
  test a number against `0`); arrays and objects are the single value `other`.
* The table `DBW00003` is a list of `Row`s plus the next AUTO_INCREMENT id.  A cell
  keeps the value bound to its `?` placeholder.  The column `carousel_images`
  holds the JSON text of an array of paths; a cell is represented by the array it
  encodes (`none` for SQL NULL), so `JSON.parse (JSON.stringify xs)` is `xs`.
* The disk is the list of files present in the two upload directories.
* Every `db.query` either fails, leaving the table as it was, or is carried out
  whole.  Which statements fail is an input of each handler (`Faults`).
* Time is a number and `now` is the value of `NOW()` during the request.  The column
  `updated_at` is declared `ON UPDATE CURRENT_TIMESTAMP`: an UPDATE that does not
  assign it stamps every row it changes with `now` and leaves the other rows alone.
* A handler returns the HTTP status, the row handed to `rowToApi` (if any), the
  world it leaves behind and the list of statements it issued.
-/

namespace Anuncios

/-! ## JavaScript values -/

/-- A JavaScript value as the handlers see it in `req.body` or in a row. -/
inductive JsVal where
  | undefined
  | null
  | bool (b : Bool)
  | num (n : Int)
  | str (s : String)
  | other
  deriving DecidableEq, Repr, Inhabited

/-- JavaScript truthiness: `undefined`, `null`, `false`, `0` and `''` are falsy. -/
def JsVal.truthy : JsVal → Bool
  | .undefined => false
  | .null => false
  | .bool b => b
  | .num n => n != 0
  | .str s => s != ""
  | .other => true

/-- The expression `a || b`. -/
def JsVal.or (a b : JsVal) : JsVal := if a.truthy then a else b

/-- `String.prototype.toLowerCase`, on the ASCII letters.  No character outside
ASCII lowers to a letter of a recognised kind or of `'true'`, so every test the
handlers make on a lowered string has the outcome it has in JavaScript. -/
def toLowerCase (s : String) : String := ⟨s.data.map Char.toLower⟩

/-- `toBool(v)`; `none` stands for `undefined`. -/
def toBool : JsVal → Option Bool
  | .null => none
  | .undefined => none
  | .bool b => some b
  | .num n => some (n != 0)
  | .str s => some (toLowerCase s == "true" || s == "1")
  | .other => none

/-- Allowed kinds: the members of the set `TIPOS`. -/
def TIPOS : List String :=
  ["info", "success", "warning", "danger", "banner", "popup", "carousel"]

/-- `TIPOS.has(v)`: only a string can be a member. -/
def TIPOS_has : JsVal → Bool
  | .str s => decide (s ∈ TIPOS)
  | _ => false

/-! ## Files -/

/-- The two upload directories under `uploads/`. -/
inductive UploadDir where
  | anuncios
  | carousels
  deriving DecidableEq, Repr

/-- A file on disk: its directory and its name. -/
abbrev DiskFile := UploadDir × String

/-- The files present under `uploads/anuncios` and `uploads/carousels`. -/
abbrev Disk := List DiskFile

/-- The characters of `path.basename(p)` (POSIX): trailing slashes are dropped,
then everything up to and including the last remaining slash. -/
def basenameChars (cs : List Char) : List Char :=
  ((cs.reverse.dropWhile (fun c => c == '/')).takeWhile (fun c => c != '/')).reverse

/-- `path.basename(p)`. -/
def basename (p : String) : String := ⟨basenameChars p.data⟩

/-- `if (fs.existsSync(fullPath)) fs.unlinkSync(fullPath)`. -/
def unlinkIfExists (f : DiskFile) (disk : Disk) : Disk :=
  if f ∈ disk then disk.filter (fun g => g != f) else disk

/-- `deleteImageFile(imagePath, isCarouselImage)`.  A falsy path returns at once;
for a truthy value that is not a string `path.basename` throws and the `catch`
swallows it. -/
def deleteImageFile (imagePath : JsVal) (isCarouselImage : Bool) (disk : Disk) : Disk :=
  match imagePath with
  | .str p =>
    if p = "" then disk
    else
      let filename := basename p
      let uploadDir := if isCarouselImage then UploadDir.carousels else UploadDir.anuncios
      unlinkIfExists (uploadDir, filename) disk
  | _ => disk

/-- `deleteCarouselImages(carouselImagesJson)`: every path of the parsed array is
deleted from the carousel directory. -/
def deleteCarouselImages (carouselImagesJson : Option (List String)) (disk : Disk) : Disk :=
  match carouselImagesJson with
  | none => disk
  | some images => images.foldl (fun d img => deleteImageFile (.str img) true d) disk

/-! ## The table -/

/-- A row of `DBW00003`.  `activo` and `dismissible` are numeric flags: every write of
the handlers stores 0 or 1, `WHERE activo = 1` selects the active rows, and a read
hands the number back to JavaScript. -/
structure Row where
  id : Nat
  tipo : JsVal
  titulo : JsVal
  mensaje : JsVal
  link_url : JsVal
  imagen_url : JsVal
  carousel_images : Option (List String)
  activo : Nat
  dismissible : Nat
  include_pages : JsVal
  exclude_pages : JsVal
  starts_at : JsVal
  ends_at : JsVal
  created_at : Nat
  updated_at : Nat
  deriving DecidableEq, Repr

/-- The table, its AUTO_INCREMENT counter and the upload directories. -/
structure World where
  rows : List Row
  nextId : Nat
  disk : Disk
  deriving DecidableEq, Repr

/-- The statements a handler can issue. -/
inductive Sql where
  | select
  | deactivate
  | insert
  | update
  | delete
  deriving DecidableEq, Repr

/-- Which statements of a request end in an error: the first SELECT of PUT and
DELETE, the UPDATE of `deactivateOthers`, the INSERT / UPDATE / DELETE proper,
and the closing SELECT that re-reads the row. -/
structure Faults where
  lookup : Bool
  deactivate : Bool
  write : Bool
  reread : Bool
  deriving DecidableEq, Repr

/-- No statement fails. -/
def Faults.none : Faults := ⟨false, false, false, false⟩

/-- What a handler leaves behind. -/
structure Result where
  status : Nat
  data : Option Row
  world : World
  log : List Sql
  deriving DecidableEq, Repr

/-- One row once `SET activo = 0` has reached it.  The table declares `updated_at
TIMESTAMP DEFAULT CURRENT_TIMESTAMP ON UPDATE CURRENT_TIMESTAMP`
(`scripts/migrate-anuncios-images.js`) and the statement does not assign that column, so
the store stamps the row with the current time when, and only when, the statement
changes it. -/
def setInactive (now : Nat) (r : Row) : Row :=
  if r.activo = 0 then r else { r with activo := 0, updated_at := now }

/-- The rows after `UPDATE DBW00003 SET activo = 0 [WHERE id != ?]`, run at `now`.  The
exclusion is dropped when `excludeId` is absent; PUT passes `req.params.id`, a
non-empty string, which is truthy whatever the id. -/
def deactivateOthers (now : Nat) (excludeId : Option Nat) (rows : List Row) : List Row :=
  match excludeId with
  | some x => rows.map (fun r => if r.id != x then setInactive now r else r)
  | none => rows.map (setInactive now)

/-- The rows a `SELECT ... WHERE id = ?` returns; the handlers use `rows[0]`. -/
def selectById (id : Nat) (rows : List Row) : Option Row :=
  rows.find? (fun r => r.id == id)

/-- Number of rows with `activo = 1`. -/
def activeCount (rows : List Row) : Nat :=
  (rows.filter (fun r => r.activo == 1)).length

/-! ## Requests -/

/-- The keys of `req.body` the handlers read; a missing key is `undefined`. -/
structure Body where
  tipo : JsVal
  titulo : JsVal
  mensaje : JsVal
  link_url : JsVal
  imagen_url : JsVal
  activo : JsVal
  dismissible : JsVal
  starts_at : JsVal
  ends_at : JsVal
  include_pages : JsVal
  exclude_pages : JsVal
  deriving DecidableEq, Repr

/-- A body with no recognised key. -/
def Body.empty : Body :=
  ⟨.undefined, .undefined, .undefined, .undefined, .undefined, .undefined,
   .undefined, .undefined, .undefined, .undefined, .undefined⟩

/-- A multipart request after `uploadFields`: the body and, per field name, the
generated names of the files multer stored (`req.files.image`,
`req.files.carousel_images`; an absent field is the empty list). -/
structure Req where
  body : Body
  image : List String
  carousel_images : List String
  deriving DecidableEq, Repr

/-- The value of `req.file`.  It is set by multer's `.single()` only; `uploadFields` is
`unifiedUpload.fields([...])`, which fills `req.files` and leaves `req.file` unset. -/
def Req.file (_req : Req) : Option String := none

/-- The value of `req.files.length`.  After `.fields([...])`, `req.files` is an object keyed by
field name, not an array, so the property is `undefined`. -/
def Req.filesLength (_req : Req) : Option Nat := none

/-- The files `mixedStorage` wrote for a request: `carousel_images` go to the
carousel directory, everything else to `uploads/anuncios`. -/
def uploaded (req : Req) : List DiskFile :=
  req.image.map (fun fn => (UploadDir.anuncios, fn)) ++
  req.carousel_images.map (fun fn => (UploadDir.carousels, fn))

/-- The world once the `uploadFields` middleware has stored the request's files. -/
def uploadFields (req : Req) (w : World) : World :=
  { w with disk := w.disk ++ uploaded req }

/-- A name multer can generate: not empty and without a slash. -/
def validName (fn : String) : Prop := fn.data ≠ [] ∧ '/' ∉ fn.data

instance (fn : String) : Decidable (validName fn) := by
  unfold validName; exact inferInstance

/-- The requests `uploadFields` lets through: at most one `image`, at most ten
`carousel_images`, each stored under a generated name. -/
def Req.wellFormed (req : Req) : Prop :=
  req.image.length ≤ 1 ∧ req.carousel_images.length ≤ 10 ∧
  ∀ fn ∈ req.image ++ req.carousel_images, validName fn

instance (req : Req) : Decidable req.wellFormed := by
  unfold Req.wellFormed; exact inferInstance

/-- The path stored for a primary image. -/
def anunciosPath (filename : String) : String := "/uploads/anuncios/" ++ filename

/-- The path stored for a slide. -/
def carouselsPath (filename : String) : String := "/uploads/carousels/" ++ filename

/-- The loop `slides.forEach(f => deleteImageFile('/uploads/carousels/' + f.filename, true))`. -/
def deleteSlides (slides : List String) (disk : Disk) : Disk :=
  slides.foldl (fun d fn => deleteImageFile (.str (carouselsPath fn)) true d) disk

/-! ## PATCH /:id -/

/-- One `column = ?` of the PATCH statement together with its parameter. -/
inductive Assign where
  | titulo (v : JsVal)
  | mensaje (v : JsVal)
  | tipo (v : JsVal)
  | link_url (v : JsVal)
  | imagen_url (v : JsVal)
  | activo (n : Nat)
  | dismissible (n : Nat)
  | starts_at (v : JsVal)
  | ends_at (v : JsVal)
  | include_pages (v : JsVal)
  | exclude_pages (v : JsVal)
  deriving DecidableEq, Repr

/-- Effect of one assignment on a row. -/
def Assign.apply : Assign → Row → Row
  | .titulo v, r => { r with titulo := v }
  | .mensaje v, r => { r with mensaje := v }
  | .tipo v, r => { r with tipo := v }
  | .link_url v, r => { r with link_url := v }
  | .imagen_url v, r => { r with imagen_url := v }
  | .activo n, r => { r with activo := n }
  | .dismissible n, r => { r with dismissible := n }
  | .starts_at v, r => { r with starts_at := v }
  | .ends_at v, r => { r with ends_at := v }
  | .include_pages v, r => { r with include_pages := v }
  | .exclude_pages v, r => { r with exclude_pages := v }

/-- Effect of the whole SET list, left to right. -/
def applyAll (fields : List Assign) (r : Row) : Row :=
  fields.foldl (fun acc a => a.apply acc) r

/-- The pair `fields.push(..); params.push(..)` guarded by `body.x !== undefined`. -/
def pushIf (v : JsVal) (a : Assign) : List Assign :=
  if v ≠ .undefined then [a] else []

/-- The parameter `toBool(v) ? 1 : 0`. -/
def boolParam (v : JsVal) : Nat := if toBool v = some true then 1 else 0

/-- The `fields` / `params` arrays PATCH builds, in the order of the source; `none`
when `body.tipo` is supplied and is not in `TIPOS` (the early 400). -/
def patchFields (body : Body) : Option (List Assign) :=
  if body.tipo ≠ .undefined ∧ TIPOS_has body.tipo = false then none
  else some (
    pushIf body.titulo (.titulo body.titulo) ++
    pushIf body.mensaje (.mensaje body.mensaje) ++
    pushIf body.tipo (.tipo body.tipo) ++
    pushIf body.link_url (.link_url body.link_url) ++
    pushIf body.imagen_url (.imagen_url (body.imagen_url.or .null)) ++
    pushIf body.activo (.activo (boolParam body.activo)) ++
    pushIf body.dismissible (.dismissible (boolParam body.dismissible)) ++
    pushIf body.starts_at (.starts_at (body.starts_at.or .null)) ++
    pushIf body.ends_at (.ends_at (body.ends_at.or .null)) ++
    pushIf body.include_pages (.include_pages (body.include_pages.or .null)) ++
    pushIf body.exclude_pages (.exclude_pages (body.exclude_pages.or .null)))

/-- The handler `router.patch('/:id')`. -/
def router_patch (f : Faults) (now : Nat) (id : Nat) (body : Body) (w : World) : Result :=
  match patchFields body with
  | none => ⟨400, none, w, []⟩
  | some fields =>
    if fields.length = 0 then ⟨400, none, w, []⟩
    else if f.write then ⟨500, none, w, [.update]⟩
    else
      let affectedRows := (w.rows.filter (fun r => r.id == id)).length
      let rows1 := w.rows.map (fun r =>
        if r.id == id then { applyAll fields r with updated_at := now } else r)
      let w1 := { w with rows := rows1 }
      if affectedRows = 0 then ⟨404, none, w1, [.update]⟩
      else if f.reread then ⟨500, none, w1, [.update, .select]⟩
      else ⟨200, selectById id rows1, w1, [.update, .select]⟩

/-! ## POST / -/

/-- The expression `(req.body?.tipo || 'banner').toLowerCase()`; `none` when the
value is truthy but not a string, where the call throws a TypeError. -/
def lowerTipo (v : JsVal) : Option String :=
  match v.or (.str "banner") with
  | .str s => some (toLowerCase s)
  | _ => none

/-- A destructuring default `x = null`: it replaces `undefined` only. -/
def defaultNull (v : JsVal) : JsVal := if v = .undefined then .null else v

/-- The value of `req.files?.image?.[0]`. -/
def primaryFile (req : Req) : Option String := req.image.head?

/-- The cleanup written with `req.file` and `req.files.length` (invalid kind in POST,
both error branches of `handleAnuncioUpdate`).  `primaryPath` and `primaryIsCarousel`
are the arguments of the first `deleteImageFile`. -/
def cleanupByReqFile (req : Req) (primaryPath : JsVal) (primaryIsCarousel : Bool)
    (disk : Disk) : Disk :=
  let d1 := match req.file with
    | some _ => deleteImageFile primaryPath primaryIsCarousel disk
    | none => disk
  match req.filesLength with
  | some n => if 0 < n then deleteSlides (req.image ++ req.carousel_images) d1 else d1
  | none => d1

/-- The cleanup written with `req.files?.image?.[0]` and `req.files?.carousel_images`
(the `catch` of POST, PUT on an unknown id or an invalid kind). -/
def cleanupByFields (req : Req) (disk : Disk) : Disk :=
  let d1 := match primaryFile req with
    | some fn => deleteImageFile (.str (anunciosPath fn)) false disk
    | none => disk
  deleteSlides req.carousel_images d1

/-- The handler `router.post('/')`, run on the world `uploadFields` left. -/
def router_post (f : Faults) (now : Nat) (req : Req) (w : World) : Result :=
  match lowerTipo req.body.tipo with
  | none =>
    -- TypeError inside `try`: the `catch` block
    ⟨500, none, { w with disk := cleanupByFields req w.disk }, []⟩
  | some tipo =>
    if tipo = "" ∨ tipo ∉ TIPOS then
      let path := match req.file with
        | some fn => JsVal.str (anunciosPath fn)
        | none => JsVal.undefined
      ⟨400, none, { w with disk := cleanupByReqFile req path false w.disk }, []⟩
    else if tipo = "carousel" ∧ primaryFile req = none then
      ⟨400, none, { w with disk := deleteSlides req.carousel_images w.disk }, []⟩
    else
      let imagen_url : JsVal := match primaryFile req with
        | some fn => .str (anunciosPath fn)
        | none => .null
      let slides := req.carousel_images
      if tipo = "carousel" ∧ slides.length < 2 then
        ⟨400, none,
          { w with disk := deleteSlides slides (deleteImageFile imagen_url false w.disk) }, []⟩
      else
        let carousel_images : Option (List String) :=
          if tipo = "carousel" then some (slides.map carouselsPath) else none
        let activoBool := (toBool req.body.activo).getD true
        let dismissibleBool := (toBool req.body.dismissible).getD true
        if activoBool ∧ f.deactivate then
          -- `await deactivateOthers()` rejects: the `catch` block
          ⟨500, none, { w with disk := cleanupByFields req w.disk }, [.deactivate]⟩
        else
          let rows1 := if activoBool then deactivateOthers now none w.rows else w.rows
          let log1 : List Sql := if activoBool then [.deactivate] else []
          if f.write then
            ⟨500, none,
              { w with rows := rows1,
                       disk := deleteSlides slides (deleteImageFile imagen_url false w.disk) },
              log1 ++ [.insert]⟩
          else
            let row : Row :=
              { id := w.nextId, tipo := .str tipo,
                titulo := defaultNull req.body.titulo,
                mensaje := defaultNull req.body.mensaje,
                link_url := defaultNull req.body.link_url,
                imagen_url := imagen_url, carousel_images := carousel_images,
                activo := if activoBool then 1 else 0,
                dismissible := if dismissibleBool then 1 else 0,
                include_pages := defaultNull req.body.include_pages,
                exclude_pages := defaultNull req.body.exclude_pages,
                starts_at := defaultNull req.body.starts_at,
                ends_at := defaultNull req.body.ends_at,
                created_at := now, updated_at := now }
            let w1 := { w with rows := rows1 ++ [row], nextId := w.nextId + 1 }
            if f.reread then ⟨500, none, w1, log1 ++ [.insert, .select]⟩
            else ⟨201, selectById row.id w1.rows, w1, log1 ++ [.insert, .select]⟩

/-! ## PUT /:id -/

/-- The merge `req.body?.x !== undefined ? req.body.x : existing.x`. -/
def merge (supplied existing : JsVal) : JsVal :=
  if supplied ≠ .undefined then supplied else existing

/-- The function `handleAnuncioUpdate(req, res, id, existing, tipo)`. -/
def handleAnuncioUpdate (f : Faults) (now : Nat) (req : Req) (id : Nat) (existing : Row)
    (tipo : JsVal) (w : World) : Result :=
  if tipo.truthy ∧ TIPOS_has tipo = false then
    ⟨400, none, { w with disk := cleanupByFields req w.disk }, [.select]⟩
  else
    let titulo := merge req.body.titulo existing.titulo
    let mensaje := merge req.body.mensaje existing.mensaje
    let link_url := merge req.body.link_url existing.link_url
    let activo := merge req.body.activo (.num existing.activo)
    let dismissible := merge req.body.dismissible (.num existing.dismissible)
    let include_pages := merge req.body.include_pages existing.include_pages
    let exclude_pages := merge req.body.exclude_pages existing.exclude_pages
    let starts_at := merge req.body.starts_at existing.starts_at
    let ends_at := merge req.body.ends_at existing.ends_at
    let oldImageUrl := existing.imagen_url
    let oldCarouselImages := existing.carousel_images
    -- primary image
    let imagen_url : JsVal := match primaryFile req with
      | some fn => .str (anunciosPath fn)
      | none => oldImageUrl
    let d1 : Disk := match primaryFile req with
      | some _ => if oldImageUrl.truthy then deleteImageFile oldImageUrl false w.disk else w.disk
      | none => w.disk
    -- carousel images
    let slides := req.carousel_images
    let carousel_images : Option (List String) :=
      if tipo = .str "carousel" then
        if 0 < slides.length then some (slides.map carouselsPath) else oldCarouselImages
      else if existing.tipo = .str "carousel" ∧ oldCarouselImages ≠ none then none
      else oldCarouselImages
    let d2 : Disk :=
      if tipo = .str "carousel" then
        if 0 < slides.length then deleteCarouselImages oldCarouselImages d1 else d1
      else if existing.tipo = .str "carousel" ∧ oldCarouselImages ≠ none then
        deleteCarouselImages oldCarouselImages d1
      else d1
    let activoBool := (toBool activo).getD false
    let dismissibleBool := (toBool dismissible).getD true
    let dErr := cleanupByReqFile req imagen_url (decide (tipo = .str "carousel")) d2
    if activoBool ∧ f.deactivate then
      ⟨500, none, { w with disk := dErr }, [.select, .deactivate]⟩
    else
      let rows1 := if activoBool then deactivateOthers now (some id) w.rows else w.rows
      let log1 : List Sql := if activoBool then [.select, .deactivate] else [.select]
      if f.write then
        ⟨500, none, { w with rows := rows1, disk := dErr }, log1 ++ [.update]⟩
      else
        let rows2 := rows1.map (fun r =>
          if r.id == id then
            { r with tipo := tipo, titulo := titulo, mensaje := mensaje, link_url := link_url,
                     imagen_url := imagen_url, carousel_images := carousel_images,
                     activo := if activoBool then 1 else 0,
                     dismissible := if dismissibleBool then 1 else 0,
                     include_pages := include_pages, exclude_pages := exclude_pages,
                     starts_at := starts_at, ends_at := ends_at, updated_at := now }
          else r)
        let w2 := { w with rows := rows2, disk := d2 }
        if f.reread then ⟨500, none, w2, log1 ++ [.update, .select]⟩
        else ⟨200, selectById id rows2, w2, log1 ++ [.update, .select]⟩

/-- The handler `router.put('/:id')`, run on the world `uploadFields` left.  Nothing
in `handleAnuncioUpdate` throws past its own `try`, so the outer `catch` is never
entered. -/
def router_put (f : Faults) (now : Nat) (id : Nat) (req : Req) (w : World) : Result :=
  if f.lookup then ⟨500, none, w, [.select]⟩
  else
    match selectById id w.rows with
    | none => ⟨404, none, { w with disk := cleanupByFields req w.disk }, [.select]⟩
    | some existing =>
      let newTipo := req.body.tipo.or existing.tipo
      handleAnuncioUpdate f now req id existing newTipo w

/-! ## DELETE /:id -/

/-- The handler `router.delete('/:id')`. -/
def router_delete (f : Faults) (id : Nat) (w : World) : Result :=
  if f.lookup then ⟨500, none, w, [.select]⟩
  else
    match selectById id w.rows with
    | none => ⟨404, none, w, [.select]⟩
    | some record =>
      let isCarousel := decide (record.tipo = .str "carousel")
      if f.write then ⟨500, none, w, [.select, .delete]⟩
      else
        let rows1 := w.rows.filter (fun r => r.id != id)
        let d1 :=
          if record.imagen_url.truthy then deleteImageFile record.imagen_url isCarousel w.disk
          else w.disk
        let d2 :=
          if isCarousel ∧ record.carousel_images ≠ none then
            deleteCarouselImages record.carousel_images d1
          else d1
        ⟨200, none, { w with rows := rows1, disk := d2 }, [.select, .delete]⟩

/-! ## GET /activo -/

/-- A row as a SELECT hands it to JavaScript.  A column the statement does not list
reads as `undefined`: that is `none` for `created_at`, and `none` for `carousel_images`
too, where `rowToApi` only tests truthiness and SQL NULL is `none` as well. -/
structure Selected where
  id : Nat
  tipo : JsVal
  titulo : JsVal
  mensaje : JsVal
  link_url : JsVal
  imagen_url : JsVal
  carousel_images : Option (List String)
  activo : Nat
  dismissible : Nat
  include_pages : JsVal
  exclude_pages : JsVal
  starts_at : JsVal
  ends_at : JsVal
  created_at : Option Nat
  updated_at : Nat
  deriving DecidableEq, Repr

/-- The columns of `SELECT *` and of the list query of `GET /`: all of them. -/
def selectAll (r : Row) : Selected :=
  { id := r.id, tipo := r.tipo, titulo := r.titulo, mensaje := r.mensaje,
    link_url := r.link_url, imagen_url := r.imagen_url, carousel_images := r.carousel_images,
    activo := r.activo, dismissible := r.dismissible, include_pages := r.include_pages,
    exclude_pages := r.exclude_pages, starts_at := r.starts_at, ends_at := r.ends_at,
    created_at := some r.created_at, updated_at := r.updated_at }

/-- The columns of the query of `GET /activo`: `id, activo, tipo, titulo, mensaje,
link_url, imagen_url, dismissible, starts_at, ends_at, include_pages, exclude_pages,
updated_at`.  `carousel_images` and `created_at` are not listed. -/
def selectActivo (r : Row) : Selected :=
  { id := r.id, tipo := r.tipo, titulo := r.titulo, mensaje := r.mensaje,
    link_url := r.link_url, imagen_url := r.imagen_url, carousel_images := none,
    activo := r.activo, dismissible := r.dismissible, include_pages := r.include_pages,
    exclude_pages := r.exclude_pages, starts_at := r.starts_at, ends_at := r.ends_at,
    created_at := none, updated_at := r.updated_at }

/-- The object `rowToApi` builds; `carousel_images` is `none` when the key is not set. -/
structure ApiObj where
  id : Nat
  tipo : JsVal
  titulo : JsVal
  mensaje : JsVal
  imagen_url : JsVal
  link_url : JsVal
  activo : Bool
  dismissible : Bool
  include_pages : JsVal
  exclude_pages : JsVal
  starts_at : JsVal
  ends_at : JsVal
  created_at : Option Nat
  updated_at : Nat
  carousel_images : Option (List String)
  deriving DecidableEq, Repr

/-- `rowToApi(r)`.  No query selects a column `image_url`, so `r.image_url` is
`undefined`. -/
def rowToApi (r : Selected) : ApiObj :=
  { id := r.id,
    tipo := r.tipo,
    titulo := r.titulo.or .undefined,
    mensaje := r.mensaje.or .undefined,
    imagen_url := (r.imagen_url.or .undefined).or .null,
    link_url := r.link_url.or .undefined,
    activo := r.activo != 0,
    dismissible := r.dismissible != 0,
    include_pages := r.include_pages.or .null,
    exclude_pages := r.exclude_pages.or .null,
    starts_at := r.starts_at.or .null,
    ends_at := r.ends_at.or .null,
    created_at := r.created_at,
    updated_at := r.updated_at,
    carousel_images :=
      if r.tipo = .str "carousel" ∧ r.carousel_images ≠ none then r.carousel_images else none }

/-- The DATETIME a cell holds: NULL for `null`, otherwise the instant the store reads
from the bound value.  `toInstant` is that reading; instants and `NOW()` are numbers
on one clock. -/
def cellInstant (toInstant : JsVal → Nat) : JsVal → Option Nat
  | .null => none
  | .undefined => none
  | v => some (toInstant v)

/-- The WHERE clause of `GET /activo`: `activo = 1 AND (starts_at IS NULL OR starts_at <=
NOW()) AND (ends_at IS NULL OR ends_at >= NOW())`. -/
def activeNow (toInstant : JsVal → Nat) (now : Nat) (r : Row) : Bool :=
  r.activo == 1 &&
  (match cellInstant toInstant r.starts_at with
    | none => true
    | some s => decide (s ≤ now)) &&
  (match cellInstant toInstant r.ends_at with
    | none => true
    | some e => decide (e ≥ now))

/-- The clause `ORDER BY updated_at DESC LIMIT 1`: a row of greatest `updated_at`.  Among
equal timestamps SQL may return any row; here the first in table order. -/
def mostRecent : List Row → Option Row
  | [] => none
  | r :: rs =>
    match mostRecent rs with
    | none => some r
    | some m => if r.updated_at ≥ m.updated_at then some r else some m

/-- `fs.existsSync(path.join(__dirname, 'uploads', dir, filename))`.  Both upload
directories exist, and an empty name, `.` and `..` make the joined path a directory. -/
def existsSync (f : DiskFile) (disk : Disk) : Bool :=
  f.2 == "" || f.2 == "." || f.2 == ".." || decide (f ∈ disk)

/-- What a read-only handler answers. -/
structure Reply where
  status : Nat
  body : Option ApiObj
  log : List Sql
  deriving DecidableEq, Repr

/-- The handler `router.get('/activo')`.  `none`: the stored `imagen_url` is truthy but
not a string, `path.basename` throws inside the query callback and no response is
sent. -/
def router_get_activo (toInstant : JsVal → Nat) (f : Faults) (now : Nat) (w : World) :
    Option Reply :=
  if f.lookup then some ⟨500, none, [.select]⟩
  else
    match mostRecent (w.rows.filter (activeNow toInstant now)) with
    | none => some ⟨204, none, [.select]⟩
    | some anuncio =>
      if anuncio.imagen_url.truthy then
        match anuncio.imagen_url with
        | .str p =>
          let filename := basename p
          if !existsSync (UploadDir.anuncios, filename) w.disk then some ⟨204, none, [.select]⟩
          else some ⟨200, some (rowToApi (selectActivo anuncio)), [.select]⟩
        | _ => none
      else some ⟨200, some (rowToApi (selectActivo anuncio)), [.select]⟩

/-- Eligibility in the words of the specification: active, start bound absent or not
after now, end bound absent or not before now. -/
def eligible (toInstant : JsVal → Nat) (now : Nat) (r : Row) : Prop :=
  r.activo = 1 ∧
  (∀ s, cellInstant toInstant r.starts_at = some s → s ≤ now) ∧
  (∀ e, cellInstant toInstant r.ends_at = some e → now ≤ e)

/-- A reading of DATETIME cells for the examples: the number itself, in seconds. -/
def secondsOf : JsVal → Nat
  | .num n => n.toNat
  | _ => 0

/-! ## Requests that pass validation, and sample data -/

/-- The check POST makes before it touches the table: the lowered kind is in `TIPOS`
and a carousel comes with a primary image and at least two slides. -/
def validCreate (req : Req) : Bool :=
  match lowerTipo req.body.tipo with
  | none => false
  | some tipo =>
    decide (tipo ∈ TIPOS) &&
      (tipo != "carousel" || ((primaryFile req).isSome && decide (2 ≤ req.carousel_images.length)))

/-- A row with the given id, kind, active flag and primary image, everything else unset. -/
def sampleRow (id : Nat) (tipo : String) (activo : Nat) (imagen_url : JsVal) : Row :=
  { id := id, tipo := .str tipo, titulo := .null, mensaje := .null, link_url := .null,
    imagen_url := imagen_url, carousel_images := none, activo := activo, dismissible := 1,
    include_pages := .null, exclude_pages := .null, starts_at := .null, ends_at := .null,
    created_at := 0, updated_at := 0 }

/-- An empty table and empty upload directories. -/
def emptyWorld : World := ⟨[], 1, []⟩

/-- A table with an active banner (id 1) and an inactive banner (id 2). -/
def twoBanners : World :=
  ⟨[sampleRow 1 "banner" 1 .null, sampleRow 2 "banner" 0 .null], 3, []⟩

/-- The scenario request `create(kind = carousel, active, primary + 2 slides)`. -/
def carouselReq : Req :=
  ⟨{ Body.empty with tipo := .str "carousel", activo := .str "true" },
   ["anuncio-1-a.png"], ["slide-1-b.png", "slide-1-c.png"]⟩

/-- The scenario request `create(kind = banner, active, primary)`. -/
def bannerReq : Req :=
  ⟨{ Body.empty with tipo := .str "banner", activo := .str "true" }, ["anuncio-2-d.png"], []⟩

/-- The world after `carouselReq` has been created in `emptyWorld`: one active
carousel (id 1) whose primary image and two slides are on disk. -/
def afterCarousel : World :=
  (router_post Faults.none 4 carouselReq (uploadFields carouselReq emptyWorld)).world

/-- A create request with a kind that is not in `TIPOS`, a primary image and a slide. -/
def videoReq : Req :=
  ⟨{ Body.empty with tipo := .str "video" }, ["anuncio-3-e.png"], ["slide-3-f.png"]⟩

/-- A carousel create request with a primary image and a single slide. -/
def oneSlideReq : Req :=
  ⟨{ Body.empty with tipo := .str "Carousel" }, ["anuncio-4-g.png"], ["slide-4-h.png"]⟩

/-- A full update that uploads a new primary image and two new slides. -/
def replaceImagesReq : Req :=
  ⟨Body.empty, ["anuncio-5-i.png"], ["slide-5-j.png", "slide-5-k.png"]⟩

/-- The body supplies none of the fields PATCH recognises. -/
def Body.noFields (body : Body) : Prop :=
  body.titulo = .undefined ∧ body.mensaje = .undefined ∧ body.tipo = .undefined ∧
  body.link_url = .undefined ∧ body.imagen_url = .undefined ∧ body.activo = .undefined ∧
  body.dismissible = .undefined ∧ body.starts_at = .undefined ∧ body.ends_at = .undefined ∧
  body.include_pages = .undefined ∧ body.exclude_pages = .undefined

instance (body : Body) : Decidable body.noFields := by
  unfold Body.noFields; exact inferInstance

/-- A full update that supplies a title, an empty message and `activo = '0'`, and
leaves every other key out. -/
def retitleReq : Req :=
  ⟨{ Body.empty with titulo := .str "Sale", mensaje := .str "", activo := .str "0" }, [], []⟩

/-- Every row stores its two flags as 0 or 1. -/
def flagsOk (rows : List Row) : Prop := ∀ r ∈ rows, r.activo ≤ 1 ∧ r.dismissible ≤ 1

instance (rows : List Row) : Decidable (flagsOk rows) := by
  unfold flagsOk; exact inferInstance

/-! ## Pieces of `handleAnuncioUpdate`, named for the statements about PUT -/

/-- The value of `imagen_url` when the UPDATE is built: the path of the uploaded primary
image, or the stored one. -/
def putImagenUrl (req : Req) (old : Row) : JsVal :=
  match primaryFile req with
  | some fn => .str (anunciosPath fn)
  | none => old.imagen_url

/-- The value of `carousel_images` when the UPDATE is built, for the resulting kind
`tipo`. -/
def putSlides (req : Req) (old : Row) (tipo : JsVal) : Option (List String) :=
  if tipo = .str "carousel" then
    if 0 < req.carousel_images.length then some (req.carousel_images.map carouselsPath)
    else old.carousel_images
  else if old.tipo = .str "carousel" ∧ old.carousel_images ≠ none then none
  else old.carousel_images

/-- The disk when the UPDATE is built: the old primary image is deleted when a new one
is uploaded, the old slides when they are replaced or the kind leaves `carousel`. -/
def putDisk (req : Req) (old : Row) (tipo : JsVal) (disk : Disk) : Disk :=
  let d1 : Disk := match primaryFile req with
    | some _ => if old.imagen_url.truthy then deleteImageFile old.imagen_url false disk else disk
    | none => disk
  if tipo = .str "carousel" then
    if 0 < req.carousel_images.length then deleteCarouselImages old.carousel_images d1 else d1
  else if old.tipo = .str "carousel" ∧ old.carousel_images ≠ none then
    deleteCarouselImages old.carousel_images d1
  else d1

/-- A full update of a carousel that changes the kind to `banner` and uploads nothing. -/
def toBannerReq : Req := ⟨{ Body.empty with tipo := .str "banner" }, [], []⟩

/-- A full update that uploads one new slide and nothing else. -/
def oneNewSlideReq : Req := ⟨Body.empty, [], ["slide-6-m.png"]⟩

/-- The slide rule for one row: a non-empty slide list only on a carousel, and a
carousel has at least two slides. -/
def slidesOk (r : Row) : Prop :=
  (r.carousel_images.getD [] ≠ [] → r.tipo = .str "carousel") ∧
  (r.tipo = .str "carousel" → 2 ≤ (r.carousel_images.getD []).length)

instance (r : Row) : Decidable (slidesOk r) := by
  unfold slidesOk; exact inferInstance

/-- A table whose only row is an active banner without image, shown from instant 100
to instant 200. -/
def windowWorld : World :=
  ⟨[{ sampleRow 1 "banner" 1 .null with starts_at := .num 100, ends_at := .num 200 }], 2, []⟩

/-- A table with four banners and a disk that holds `a.png` only.  Record 1 is active,
names `a.png` and was updated at 5; record 2 is active, names `gone.png`, which is not on
disk, and was updated at 8; record 3 is active without image until instant 50 and was
updated at 9; record 4 is inactive and was updated at 10. -/
def servingWorld : World :=
  ⟨[{ sampleRow 1 "banner" 1 (.str "/uploads/anuncios/a.png") with updated_at := 5 },
    { sampleRow 2 "banner" 1 (.str "/uploads/anuncios/gone.png") with
        titulo := .str "Sale"
        mensaje := .str ""
        dismissible := 0
        updated_at := 8 },
    { sampleRow 3 "banner" 1 .null with ends_at := .num 50, updated_at := 9 },
    { sampleRow 4 "banner" 0 .null with updated_at := 10 }],
   5, [(UploadDir.anuncios, "a.png")]⟩

/-- The create request of the smoke test: kind `imagepopup`, a title, both flags and a
primary image. -/
def imagepopupReq : Req :=
  ⟨{ Body.empty with
      tipo := .str "imagepopup"
      titulo := .str "Test Image Popup"
      dismissible := .str "true"
      activo := .str "true" }, ["anuncio-7-n.png"], []⟩

/-- A create request of kind `popup` with a primary image and no `mensaje`. -/
def popupReq : Req := ⟨{ Body.empty with tipo := .str "popup" }, ["anuncio-8-p.png"], []⟩

/-- A create request of kind `banner` with `activo = 'yes'` and `dismissible = 'on'`. -/
def yesReq : Req :=
  ⟨{ Body.empty with tipo := .str "banner", activo := .str "yes", dismissible := .str "on" },
   ["anuncio-9-q.png"], []⟩

/-- A create request of kind `banner` that uploads no file. -/
def noImageReq : Req := ⟨{ Body.empty with tipo := .str "banner" }, [], []⟩

/-- The promise `deactivateOthers` returns, `none` when it rejects.  The callback
rejects exactly when the query reports `err`; `result.affectedRows` is only logged. -/
def deactivateOthersPromise (now : Nat) (err : Bool) (excludeId : Option Nat)
    (rows : List Row) :
    Option (List Row) :=
  if err then none else some (deactivateOthers now excludeId rows)

/-- The directory `deleteImageFile` looks in for a category. -/
def categoryDir (isCarouselImage : Bool) : UploadDir :=
  if isCarouselImage then UploadDir.carousels else UploadDir.anuncios

/-- The paths a record stores: its primary image path, when it is a string, and its
slides. -/
def referencedPaths (r : Row) : List String :=
  (match r.imagen_url with
    | .str p => [p]
    | _ => []) ++ r.carousel_images.getD []

/-- A disk with one primary image and two slides. -/
def sampleDisk : Disk :=
  [(UploadDir.anuncios, "passwd"), (UploadDir.anuncios, "a.png"), (UploadDir.carousels, "a.png")]

/-- A table with two banners, record 1 with a primary image on disk and record 2
without image. -/
def oneImageWorld : World :=
  ⟨[sampleRow 1 "banner" 1 (.str "/uploads/anuncios/anuncio-1-a.png"),
    sampleRow 2 "banner" 0 .null], 3, [(UploadDir.anuncios, "anuncio-1-a.png")]⟩

/-- The world after `PATCH /2` has set the `imagen_url` of record 2 to the path record 1
stores: both records name the same file. -/
def sharedImageWorld : World :=
  (router_patch Faults.none 9 2
    { Body.empty with imagen_url := .str "/uploads/anuncios/anuncio-1-a.png" }
    oneImageWorld).world

/-- A full update that uploads a new primary image and nothing else. -/
def newPrimaryReq : Req := ⟨Body.empty, ["anuncio-5-i.png"], []⟩

end Anuncios

namespace ContactoDb

/-! ## The contact code of `contactodb.js` -/

/-- `String(n)` for a non-negative integer: its decimal digits. -/
def jsString (n : Nat) : List Char := Nat.toDigits 10 n

/-- `s.padStart(2, '0')`: zeros in front up to length 2. -/
def padStart2 (s : List Char) : List Char := List.replicate (2 - s.length) '0' ++ s

/-- `s.slice(-2)`: the last two characters, all of `s` when it is shorter. -/
def sliceLast2 (s : List Char) : List Char := s.drop (s.length - 2)

/-- The constant `chars`. -/
def chars : String := "ABCDEFGHIJKLMNOPQRSTUVWXYZ0123456789"

/-- `s.charAt(i)`: the empty string when `i` is out of range. -/
def charAt (s : String) (i : Nat) : List Char :=
  match s.data.get? i with
  | some c => [c]
  | none => []

/-- `generarCodigoContacto()`.  The date enters as `getFullYear()`, `getMonth()` (from 0)
and `getDate()`; `r1 r2 r3` are the values of `Math.floor(Math.random() * chars.length)`
in the three rounds of the loop. -/
def generarCodigoContacto (year month day r1 r2 r3 : Nat) : String :=
  let prefijo := "CNT"
  let dia := padStart2 (jsString day)
  let mes := padStart2 (jsString (month + 1))
  let anio := sliceLast2 (jsString year)
  let fechaStr := anio ++ mes ++ dia
  let sufijo := charAt chars r1 ++ charAt chars r2 ++ charAt chars r3
  ⟨prefijo.data ++ fechaStr ++ sufijo⟩

end ContactoDb

namespace Anuncios

/-! ## Paths and disk: basic facts -/

theorem setInactive_eq (now : Nat) :
    setInactive now
      = fun o => if o.activo = 0 then o else { o with activo := 0, updated_at := now } := rfl

@[simp]
theorem setInactive_id (now : Nat) (r : Row) : (setInactive now r).id = r.id := by
  unfold setInactive; split <;> rfl

@[simp]
theorem setInactive_activo (now : Nat) (r : Row) : (setInactive now r).activo = 0 := by
  unfold setInactive
  split
  · assumption
  · rfl

@[simp]
theorem setInactive_dismissible (now : Nat) (r : Row) :
    (setInactive now r).dismissible = r.dismissible := by
  unfold setInactive; split <;> rfl

@[simp]
theorem setInactive_tipo (now : Nat) (r : Row) : (setInactive now r).tipo = r.tipo := by
  unfold setInactive; split <;> rfl

@[simp]
theorem setInactive_carousel_images (now : Nat) (r : Row) :
    (setInactive now r).carousel_images = r.carousel_images := by
  unfold setInactive; split <;> rfl

theorem basenameChars_dir (pre l : List Char) (hne : l ≠ []) (hs : '/' ∉ l) :
    basenameChars (pre ++ '/' :: l) = l := by
  unfold basenameChars
  have hrev : (pre ++ '/' :: l).reverse = l.reverse ++ '/' :: pre.reverse := by simp
  rw [hrev]
  have hall : ∀ c ∈ l.reverse, (c != '/') = true := by
    intro c hc
    have : c ∈ l := by simpa using hc
    simp only [bne_iff_ne, ne_eq]
    rintro rfl
    exact hs this
  have hdrop : (l.reverse ++ '/' :: pre.reverse).dropWhile (fun c => c == '/')
      = l.reverse ++ '/' :: pre.reverse := by
    cases hl : l.reverse with
    | nil => simp at hl; exact absurd hl hne
    | cons a t =>
      have ha : (a != '/') = true := hall a (by simp [hl])
      have ha2 : (a == '/') = false := by simpa [bne] using ha
      simp [List.dropWhile_cons, ha2]
  rw [hdrop, List.takeWhile_append_of_pos hall]
  simp

theorem basename_anunciosPath (fn : String) (h : validName fn) :
    basename (anunciosPath fn) = fn := by
  unfold basename anunciosPath
  have hd : ("/uploads/anuncios/" ++ fn).data = "/uploads/anuncios".data ++ '/' :: fn.data := by
    simp [String.data_append]
  rw [hd, basenameChars_dir _ _ h.1 h.2]

theorem basename_carouselsPath (fn : String) (h : validName fn) :
    basename (carouselsPath fn) = fn := by
  unfold basename carouselsPath
  have hd : ("/uploads/carousels/" ++ fn).data = "/uploads/carousels".data ++ '/' :: fn.data := by
    simp [String.data_append]
  rw [hd, basenameChars_dir _ _ h.1 h.2]

theorem anunciosPath_ne_empty (fn : String) : anunciosPath fn ≠ "" := by
  intro h
  have := congrArg String.data h
  simp [anunciosPath, String.data_append] at this

theorem carouselsPath_ne_empty (fn : String) : carouselsPath fn ≠ "" := by
  intro h
  have := congrArg String.data h
  simp [carouselsPath, String.data_append] at this

theorem not_mem_unlinkIfExists (f : DiskFile) (disk : Disk) : f ∉ unlinkIfExists f disk := by
  unfold unlinkIfExists
  split
  · simp [List.mem_filter]
  · assumption

theorem mem_of_mem_unlinkIfExists {f g : DiskFile} {disk : Disk}
    (h : g ∈ unlinkIfExists f disk) : g ∈ disk := by
  unfold unlinkIfExists at h
  split at h
  · exact (List.mem_filter.mp h).1
  · exact h

theorem mem_unlinkIfExists_of_ne {f g : DiskFile} {disk : Disk}
    (hne : g ≠ f) (h : g ∈ disk) : g ∈ unlinkIfExists f disk := by
  unfold unlinkIfExists
  split
  · exact List.mem_filter.mpr ⟨h, by simpa using hne⟩
  · exact h

theorem mem_of_mem_deleteImageFile {p : JsVal} {c : Bool} {g : DiskFile} {disk : Disk}
    (h : g ∈ deleteImageFile p c disk) : g ∈ disk := by
  unfold deleteImageFile at h
  split at h
  · split at h
    · exact h
    · exact mem_of_mem_unlinkIfExists h
  · exact h

theorem deleteImageFile_anunciosPath (fn : String) (h : validName fn) (disk : Disk) :
    deleteImageFile (.str (anunciosPath fn)) false disk
      = unlinkIfExists (UploadDir.anuncios, fn) disk := by
  simp [deleteImageFile, anunciosPath_ne_empty, basename_anunciosPath fn h]

theorem deleteImageFile_carouselsPath (fn : String) (h : validName fn) (disk : Disk) :
    deleteImageFile (.str (carouselsPath fn)) true disk
      = unlinkIfExists (UploadDir.carousels, fn) disk := by
  simp [deleteImageFile, carouselsPath_ne_empty, basename_carouselsPath fn h]

theorem mem_of_mem_deleteSlides {slides : List String} {g : DiskFile} {disk : Disk}
    (h : g ∈ deleteSlides slides disk) : g ∈ disk := by
  unfold deleteSlides at h
  induction slides generalizing disk with
  | nil => exact h
  | cons a t ih => exact mem_of_mem_deleteImageFile (ih h)

theorem not_mem_deleteSlides (slides : List String) (disk : Disk)
    (hv : ∀ fn ∈ slides, validName fn) :
    ∀ fn ∈ slides, (UploadDir.carousels, fn) ∉ deleteSlides slides disk := by
  induction slides generalizing disk with
  | nil => intro fn hfn; cases hfn
  | cons a t ih =>
    intro fn hfn hmem
    have hstep : deleteSlides (a :: t) disk
        = deleteSlides t (unlinkIfExists (UploadDir.carousels, a) disk) := by
      simp [deleteSlides, deleteImageFile_carouselsPath a (hv a (by simp))]
    rw [hstep] at hmem
    rcases List.mem_cons.mp hfn with rfl | ht
    · exact not_mem_unlinkIfExists _ _ (mem_of_mem_deleteSlides hmem)
    · exact ih _ (fun x hx => hv x (List.mem_cons_of_mem _ hx)) fn ht hmem

/-! ## Single-active rule -/

theorem filter_activo_deactivateOthers_none (now : Nat) (rows : List Row) :
    (deactivateOthers now none rows).filter (fun r => r.activo == 1) = [] := by
  simp only [deactivateOthers]
  rw [List.filter_eq_nil_iff]
  intro r hr
  rw [List.mem_map] at hr
  obtain ⟨o, -, rfl⟩ := hr
  simp

/-- C1 (failing input).  PATCH stores `activo` without running `deactivateOthers`: on a
table whose only active record is 1, `PATCH /2` with body `activo: true` answers 200
and leaves records 1 and 2 both active. -/
theorem patch_activo_leaves_two_active :
    activeCount twoBanners.rows = 1 ∧
    (router_patch Faults.none 9 2 { Body.empty with activo := .bool true } twoBanners).status
      = 200 ∧
    activeCount
      (router_patch Faults.none 9 2 { Body.empty with activo := .bool true } twoBanners).world.rows
      = 2 := by
  decide

/-- C2.  A create request that passes validation and whose `activo` resolves to true
answers 201 when no statement fails, and whenever it answers 201 the table is the old
rows, all with `activo = 0` (those that were not at 0 stamped with the current time),
followed by the new row, which has `activo = 1`: the new row is the only active one. -/
theorem create_active_is_sole_active (f : Faults) (now : Nat) (req : Req) (w : World)
    (hv : validCreate req = true) (hact : (toBool req.body.activo).getD true = true) :
    ((f.deactivate = false ∧ f.write = false ∧ f.reread = false) →
      (router_post f now req (uploadFields req w)).status = 201) ∧
    ((router_post f now req (uploadFields req w)).status = 201 →
      ∃ row : Row,
        (router_post f now req (uploadFields req w)).world.rows
          = w.rows.map (fun o =>
              if o.activo = 0 then o else { o with activo := 0, updated_at := now }) ++ [row] ∧
        row.id = w.nextId ∧ row.activo = 1 ∧
        (router_post f now req (uploadFields req w)).world.rows.filter (fun r => r.activo == 1)
          = [row]) := by
  unfold validCreate at hv
  cases hl : lowerTipo req.body.tipo with
  | none => simp [hl] at hv
  | some tipo =>
    simp only [hl, Bool.and_eq_true, Bool.or_eq_true, decide_eq_true_eq, bne_iff_ne, ne_eq,
      Option.isSome_iff_ne_none] at hv
    obtain ⟨hmem, hcar⟩ := hv
    have hne : tipo ≠ "" := by
      rintro rfl
      simp [TIPOS] at hmem
    have h1 : ¬ (tipo = "" ∨ tipo ∉ TIPOS) := by simp [hne, hmem]
    have h2 : ¬ (tipo = "carousel" ∧ primaryFile req = none) := by
      rintro ⟨hc, hp⟩
      rcases hcar with h | h
      · exact h hc
      · exact h.1 hp
    have h3 : ¬ (tipo = "carousel" ∧ req.carousel_images.length < 2) := by
      rintro ⟨hc, hp⟩
      rcases hcar with h | h
      · exact h hc
      · omega
    have hfil := filter_activo_deactivateOthers_none now w.rows
    simp only [deactivateOthers, setInactive_eq] at hfil
    constructor
    · rintro ⟨hd, hw, hr⟩
      simp [router_post, hl, h1, h2, h3, hact, hd, hw, hr, uploadFields]
    · intro hs
      by_cases hd : f.deactivate = true
      · simp [router_post, hl, h1, h2, h3, hact, hd, uploadFields] at hs
      · by_cases hw : f.write = true
        · simp [router_post, hl, h1, h2, h3, hact, hd, hw, uploadFields] at hs
        · by_cases hr : f.reread = true
          · simp [router_post, hl, h1, h2, h3, hact, hd, hw, hr, uploadFields] at hs
          · simp [router_post, hl, h1, h2, h3, hact, hd, hw, hr, uploadFields, deactivateOthers,
              setInactive_eq, List.filter_append, hfil]

/-- The scenario of the specification: after the carousel of `afterCarousel`, creating
an active banner answers 201 and the banner is the only active record. -/
theorem create_active_is_sole_active_witness :
    validCreate bannerReq = true ∧ (toBool bannerReq.body.activo).getD true = true ∧
    activeCount afterCarousel.rows = 1 ∧
    (router_post Faults.none 5 bannerReq (uploadFields bannerReq afterCarousel)).status = 201 ∧
    (router_post Faults.none 5 bannerReq (uploadFields bannerReq afterCarousel)).world.rows.map
        (fun r => (r.id, r.tipo, r.activo))
      = [(1, .str "carousel", 0), (2, .str "banner", 1)] :=
  ⟨by decide, by decide, by decide,
   (create_active_is_sole_active Faults.none 5 bannerReq afterCarousel (by decide) (by decide)).1
     ⟨rfl, rfl, rfl⟩,
   by decide⟩

/-! ## Cleanup of uploaded files -/

theorem not_mem_cleanupByFields (req : Req) (disk : Disk) (hwf : req.wellFormed) :
    ∀ file ∈ uploaded req, file ∉ cleanupByFields req disk := by
  obtain ⟨himg, -, hval⟩ := hwf
  have hvs : ∀ fn ∈ req.carousel_images, validName fn :=
    fun fn h => hval fn (List.mem_append_right _ h)
  intro file hfile hmem
  unfold uploaded at hfile
  rcases List.mem_append.mp hfile with h | h
  · obtain ⟨fn, hfn, rfl⟩ := List.mem_map.mp h
    cases himage : req.image with
    | nil => simp [himage] at hfn
    | cons a t =>
      have ht : t = [] := by
        rw [himage] at himg
        simpa using himg
      subst ht
      have hfa : fn = a := by simpa [himage] using hfn
      subst hfa
      have hvn : validName fn := hval fn (by simp [himage])
      have hm := mem_of_mem_deleteSlides hmem
      simp only [primaryFile, himage, List.head?_cons, deleteImageFile_anunciosPath fn hvn] at hm
      exact not_mem_unlinkIfExists _ _ hm
  · obtain ⟨fn, hfn, rfl⟩ := List.mem_map.mp h
    exact not_mem_deleteSlides req.carousel_images _ hvs fn hfn hmem

theorem cleanup_insert_error_eq (req : Req) (disk : Disk) :
    deleteSlides req.carousel_images
        (deleteImageFile
          (match primaryFile req with
            | some fn => JsVal.str (anunciosPath fn)
            | none => JsVal.null) false disk)
      = cleanupByFields req disk := by
  unfold cleanupByFields
  cases primaryFile req <;> rfl

/-- C3 (failing input).  A create request with the unrecognised kind `video`, one
primary image and one slide answers 400 and leaves the table alone, but both uploaded
files are still on disk: the cleanup of that branch tests `req.file` and
`req.files.length`, which `uploadFields` never sets. -/
theorem create_invalid_kind_keeps_files :
    (router_post Faults.none 7 videoReq (uploadFields videoReq emptyWorld)).status = 400 ∧
    (router_post Faults.none 7 videoReq (uploadFields videoReq emptyWorld)).world.rows = [] ∧
    (UploadDir.anuncios, "anuncio-3-e.png") ∈
      (router_post Faults.none 7 videoReq (uploadFields videoReq emptyWorld)).world.disk ∧
    (UploadDir.carousels, "slide-3-f.png") ∈
      (router_post Faults.none 7 videoReq (uploadFields videoReq emptyWorld)).world.disk := by
  decide

/-- C4.  A create request whose lowered kind is `carousel` and that carries fewer than
two `carousel_images` answers 400 without issuing a statement, leaves the rows and the
id counter as they were, and none of the files it uploaded is left on disk. -/
theorem create_carousel_few_slides_rejected (f : Faults) (now : Nat) (req : Req) (w : World)
    (hwf : req.wellFormed) (hk : lowerTipo req.body.tipo = some "carousel")
    (hlt : req.carousel_images.length < 2) :
    (router_post f now req (uploadFields req w)).status = 400 ∧
    (router_post f now req (uploadFields req w)).log = [] ∧
    (router_post f now req (uploadFields req w)).world.rows = w.rows ∧
    (router_post f now req (uploadFields req w)).world.nextId = w.nextId ∧
    ∀ file ∈ uploaded req,
      file ∉ (router_post f now req (uploadFields req w)).world.disk := by
  have hmem : "carousel" ∈ TIPOS := by decide
  have hres : router_post f now req (uploadFields req w)
      = ⟨400, none, { w with disk := cleanupByFields req (w.disk ++ uploaded req) }, []⟩ := by
    by_cases hp : primaryFile req = none
    · simp [router_post, hk, hmem, hp, cleanupByFields, uploadFields]
    · rw [← cleanup_insert_error_eq]
      simp [router_post, hk, hmem, hp, hlt, uploadFields]
  rw [hres]
  exact ⟨rfl, rfl, rfl, rfl, not_mem_cleanupByFields req _ hwf⟩

/-- A carousel with a primary image and one slide is rejected and the table stays as
it was. -/
theorem create_carousel_few_slides_rejected_witness :
    oneSlideReq.wellFormed ∧ lowerTipo oneSlideReq.body.tipo = some "carousel" ∧
    oneSlideReq.carousel_images.length < 2 ∧
    (router_post Faults.none 8 oneSlideReq (uploadFields oneSlideReq afterCarousel)).status = 400 ∧
    (router_post Faults.none 8 oneSlideReq (uploadFields oneSlideReq afterCarousel)).world.rows
      = afterCarousel.rows :=
  have h := create_carousel_few_slides_rejected Faults.none 8 oneSlideReq afterCarousel
    (by decide) (by decide) (by decide)
  ⟨by decide, by decide, by decide, h.1, h.2.2.1⟩

/-- C5 (failing input).  DELETE of the carousel record 1 answers 200 and removes the row
and both slides, but the primary image stays in `uploads/anuncios`: it is looked for
in the carousel directory because `isCarousel` is passed to `deleteImageFile`. -/
theorem delete_carousel_keeps_primary_image :
    (selectById 1 afterCarousel.rows).map (fun r => r.imagen_url)
      = some (.str "/uploads/anuncios/anuncio-1-a.png") ∧
    (UploadDir.anuncios, "anuncio-1-a.png") ∈ afterCarousel.disk ∧
    (router_delete Faults.none 1 afterCarousel).status = 200 ∧
    (router_delete Faults.none 1 afterCarousel).world.rows = [] ∧
    (router_delete Faults.none 1 afterCarousel).world.disk
      = [(UploadDir.anuncios, "anuncio-1-a.png")] := by
  decide

/-- C6 (failing input).  A full update of record 1 that uploads a new primary image and
two slides and whose UPDATE statement fails answers 500 with all three uploaded files
still on disk; the same happens when `deactivateOthers` fails.  Both error branches
test `req.file` and `req.files.length`, which `uploadFields` never sets. -/
theorem put_store_failure_keeps_files :
    (router_put { Faults.none with write := true } 9 1 replaceImagesReq
        (uploadFields replaceImagesReq afterCarousel)).status = 500 ∧
    (router_put { Faults.none with write := true } 9 1 replaceImagesReq
        (uploadFields replaceImagesReq afterCarousel)).world.disk
      = [(UploadDir.anuncios, "anuncio-5-i.png"), (UploadDir.carousels, "slide-5-j.png"),
         (UploadDir.carousels, "slide-5-k.png")] ∧
    (router_put { Faults.none with deactivate := true } 9 1 replaceImagesReq
        (uploadFields replaceImagesReq afterCarousel)).status = 500 ∧
    (router_put { Faults.none with deactivate := true } 9 1 replaceImagesReq
        (uploadFields replaceImagesReq afterCarousel)).world.disk
      = [(UploadDir.anuncios, "anuncio-5-i.png"), (UploadDir.carousels, "slide-5-j.png"),
         (UploadDir.carousels, "slide-5-k.png")] := by
  decide

theorem validCreate_cases (req : Req) (hv : validCreate req = true) :
    ∃ tipo, lowerTipo req.body.tipo = some tipo ∧ tipo ≠ "" ∧ tipo ∈ TIPOS ∧
      ¬ (tipo = "carousel" ∧ primaryFile req = none) ∧
      ¬ (tipo = "carousel" ∧ req.carousel_images.length < 2) := by
  unfold validCreate at hv
  cases hl : lowerTipo req.body.tipo with
  | none => simp [hl] at hv
  | some tipo =>
    simp only [hl, Bool.and_eq_true, Bool.or_eq_true, decide_eq_true_eq, bne_iff_ne, ne_eq,
      Option.isSome_iff_ne_none] at hv
    obtain ⟨hmem, hcar⟩ := hv
    refine ⟨tipo, rfl, ?_, hmem, ?_, ?_⟩
    · rintro rfl
      simp [TIPOS] at hmem
    · rintro ⟨hc, hp⟩
      rcases hcar with h | h
      · exact h hc
      · exact h.1 hp
    · rintro ⟨hc, hp⟩
      rcases hcar with h | h
      · exact h hc
      · omega

theorem map_id_deactivateOthers (now : Nat) (x : Option Nat) (rows : List Row) :
    (deactivateOthers now x rows).map (fun r => r.id) = rows.map (fun r => r.id) := by
  cases x with
  | none => simp [deactivateOthers, Function.comp_def]
  | some i =>
    simp only [deactivateOthers, List.map_map]
    apply List.map_congr_left
    intro r _
    simp only [Function.comp_apply]
    split
    · exact setInactive_id now r
    · rfl

/-- C7.  When a create request that passes validation meets a store failure (the
`deactivateOthers` statement it needs rejects, or the INSERT returns an error) the
answer is 500, the table has the same ids as before and the same id counter, and none
of the files the request uploaded is left on disk. -/
theorem create_store_failure_cleans_up (f : Faults) (now : Nat) (req : Req) (w : World)
    (hwf : req.wellFormed) (hv : validCreate req = true)
    (hfail : ((toBool req.body.activo).getD true = true ∧ f.deactivate = true) ∨
      f.write = true) :
    (router_post f now req (uploadFields req w)).status = 500 ∧
    (router_post f now req (uploadFields req w)).world.rows.map (fun r => r.id)
      = w.rows.map (fun r => r.id) ∧
    (router_post f now req (uploadFields req w)).world.nextId = w.nextId ∧
    ∀ file ∈ uploaded req,
      file ∉ (router_post f now req (uploadFields req w)).world.disk := by
  obtain ⟨tipo, hl, hne, hmem, h2, h3⟩ := validCreate_cases req hv
  have hclean := not_mem_cleanupByFields req (w.disk ++ uploaded req) hwf
  by_cases hd : (toBool req.body.activo).getD true = true ∧ f.deactivate = true
  · have hres : router_post f now req (uploadFields req w)
        = ⟨500, none, { w with disk := cleanupByFields req (w.disk ++ uploaded req) },
            [.deactivate]⟩ := by
      simp [router_post, hl, hne, hmem, h2, h3, hd, uploadFields]
    rw [hres]
    exact ⟨rfl, rfl, rfl, hclean⟩
  · have hw : f.write = true := by
      rcases hfail with h | h
      · exact absurd h hd
      · exact h
    have hres : router_post f now req (uploadFields req w)
        = ⟨500, none,
            { w with
              rows := if (toBool req.body.activo).getD true = true
                then deactivateOthers now none w.rows else w.rows,
              disk := cleanupByFields req (w.disk ++ uploaded req) },
            (if (toBool req.body.activo).getD true = true then [Sql.deactivate] else [])
              ++ [.insert]⟩ := by
      rw [← cleanup_insert_error_eq]
      simp [router_post, hl, hne, hmem, h2, h3, hd, hw, uploadFields]
    rw [hres]
    refine ⟨rfl, ?_, rfl, hclean⟩
    show (if (toBool req.body.activo).getD true = true
      then deactivateOthers now none w.rows else w.rows).map (fun r => r.id) = _
    split
    · exact map_id_deactivateOthers now none w.rows
    · rfl

/-- A valid carousel create whose INSERT fails answers 500 and leaves no file. -/
theorem create_store_failure_cleans_up_witness :
    carouselReq.wellFormed ∧ validCreate carouselReq = true ∧
    (router_post { Faults.none with write := true } 6 carouselReq
      (uploadFields carouselReq twoBanners)).status = 500 ∧
    (router_post { Faults.none with write := true } 6 carouselReq
      (uploadFields carouselReq twoBanners)).world.disk = [] :=
  have h := create_store_failure_cleans_up { Faults.none with write := true } 6 carouselReq
    twoBanners (by decide) (by decide) (Or.inr rfl)
  ⟨by decide, by decide, h.1, by decide⟩

/-! ## PATCH -/

theorem pushIf_eq_nil (v : JsVal) (a : Assign) : pushIf v a = [] ↔ v = .undefined := by
  unfold pushIf
  by_cases h : v = .undefined <;> simp [h]

theorem patchFields_eq_nil (body : Body) (fields : List Assign)
    (h : patchFields body = some fields) : fields = [] ↔ body.noFields := by
  unfold patchFields at h
  split at h
  · cases h
  · injection h with h
    subst h
    simp only [List.append_eq_nil, pushIf_eq_nil, Body.noFields, and_assoc]

theorem map_update_of_no_match (id : Nat) (g : Row → Row) (rows : List Row)
    (h : selectById id rows = none) :
    rows.map (fun r => if (r.id == id) = true then g r else r) = rows := by
  unfold selectById at h
  rw [List.find?_eq_none] at h
  conv_rhs => rw [← List.map_id rows]
  apply List.map_congr_left
  intro r hr
  simp [h r hr]

theorem filter_of_no_match (id : Nat) (rows : List Row) (h : selectById id rows = none) :
    rows.filter (fun r => r.id == id) = [] := by
  unfold selectById at h
  rw [List.find?_eq_none] at h
  exact List.filter_eq_nil_iff.mpr h

/-- C8.  PATCH answers 400 without issuing a statement when the body supplies none of
the recognised fields, and also when it supplies a `tipo` that is not in `TIPOS`
(whatever else it supplies); otherwise, when the UPDATE is carried out and no row
has the target id, it answers 404 and the world is unchanged. -/
theorem patch_rejections (f : Faults) (now id : Nat) (body : Body) (w : World) :
    (body.noFields →
      (router_patch f now id body w).status = 400 ∧ (router_patch f now id body w).log = [] ∧
      (router_patch f now id body w).world = w) ∧
    (body.tipo ≠ .undefined → TIPOS_has body.tipo = false →
      (router_patch f now id body w).status = 400 ∧ (router_patch f now id body w).log = [] ∧
      (router_patch f now id body w).world = w) ∧
    (¬ body.noFields → (body.tipo = .undefined ∨ TIPOS_has body.tipo = true) →
      f.write = false → selectById id w.rows = none →
      (router_patch f now id body w).status = 404 ∧
      (router_patch f now id body w).log = [.update] ∧
      (router_patch f now id body w).world = w) := by
  refine ⟨?_, ?_, ?_⟩
  · intro hno
    cases hp : patchFields body with
    | none => simp [router_patch, hp]
    | some fields =>
      have hnil : fields = [] := (patchFields_eq_nil body fields hp).mpr hno
      simp [router_patch, hp, hnil]
  · intro h1 h2
    have hp : patchFields body = none := by simp [patchFields, h1, h2]
    simp [router_patch, hp]
  · intro hsome htipo hw hnone
    cases hp : patchFields body with
    | none =>
      unfold patchFields at hp
      split at hp
      · rename_i hbad
        rcases htipo with h | h
        · exact absurd h hbad.1
        · rw [hbad.2] at h; cases h
      · cases hp
    | some fields =>
      have hne : fields.length ≠ 0 := by
        intro hlen
        exact hsome ((patchFields_eq_nil body fields hp).mp (List.length_eq_zero.mp hlen))
      have hfil := filter_of_no_match id w.rows hnone
      have hmap := map_update_of_no_match id
        (fun r => { applyAll fields r with updated_at := now }) w.rows hnone
      simp only [router_patch, hp, hne, hw, hfil, hmap]
      simp

/-- An empty body, a body with an unknown kind, and an unknown id. -/
theorem patch_rejections_witness :
    (router_patch Faults.none 9 1 Body.empty twoBanners).status = 400 ∧
    (router_patch Faults.none 9 1 { Body.empty with tipo := .str "video", titulo := .str "t" }
      twoBanners).status = 400 ∧
    (router_patch Faults.none 9 7 { Body.empty with titulo := .str "t" } twoBanners).status
      = 404 :=
  have h := fun id body => patch_rejections Faults.none 9 id body twoBanners
  ⟨((h 1 Body.empty).1 (by decide)).1,
   ((h 1 { Body.empty with tipo := .str "video", titulo := .str "t" }).2.1
      (by decide) (by decide)).1,
   ((h 7 { Body.empty with titulo := .str "t" }).2.2
      (by decide) (by decide) rfl (by decide)).1⟩

theorem applyAll_append (xs ys : List Assign) (r : Row) :
    applyAll (xs ++ ys) r = applyAll ys (applyAll xs r) := by
  simp [applyAll, List.foldl_append]

theorem applyAll_pushIf (v : JsVal) (a : Assign) (r : Row) :
    applyAll (pushIf v a) r = if v = .undefined then r else a.apply r := by
  unfold pushIf applyAll
  by_cases h : v = .undefined <;> simp [h]

theorem applyAll_pushIf_titulo (v : JsVal) (x : JsVal) (r : Row) :
    applyAll (pushIf v (.titulo x)) r
      = { r with titulo := if v = .undefined then r.titulo else x } := by
  rw [applyAll_pushIf]
  by_cases h : v = .undefined <;> simp [h, Assign.apply]

theorem applyAll_pushIf_mensaje (v : JsVal) (x : JsVal) (r : Row) :
    applyAll (pushIf v (.mensaje x)) r
      = { r with mensaje := if v = .undefined then r.mensaje else x } := by
  rw [applyAll_pushIf]
  by_cases h : v = .undefined <;> simp [h, Assign.apply]

theorem applyAll_pushIf_tipo (v : JsVal) (x : JsVal) (r : Row) :
    applyAll (pushIf v (.tipo x)) r
      = { r with tipo := if v = .undefined then r.tipo else x } := by
  rw [applyAll_pushIf]
  by_cases h : v = .undefined <;> simp [h, Assign.apply]

theorem applyAll_pushIf_link_url (v : JsVal) (x : JsVal) (r : Row) :
    applyAll (pushIf v (.link_url x)) r
      = { r with link_url := if v = .undefined then r.link_url else x } := by
  rw [applyAll_pushIf]
  by_cases h : v = .undefined <;> simp [h, Assign.apply]

theorem applyAll_pushIf_imagen_url (v : JsVal) (x : JsVal) (r : Row) :
    applyAll (pushIf v (.imagen_url x)) r
      = { r with imagen_url := if v = .undefined then r.imagen_url else x } := by
  rw [applyAll_pushIf]
  by_cases h : v = .undefined <;> simp [h, Assign.apply]

theorem applyAll_pushIf_activo (v : JsVal) (x : Nat) (r : Row) :
    applyAll (pushIf v (.activo x)) r
      = { r with activo := if v = .undefined then r.activo else x } := by
  rw [applyAll_pushIf]
  by_cases h : v = .undefined <;> simp [h, Assign.apply]

theorem applyAll_pushIf_dismissible (v : JsVal) (x : Nat) (r : Row) :
    applyAll (pushIf v (.dismissible x)) r
      = { r with dismissible := if v = .undefined then r.dismissible else x } := by
  rw [applyAll_pushIf]
  by_cases h : v = .undefined <;> simp [h, Assign.apply]

theorem applyAll_pushIf_starts_at (v : JsVal) (x : JsVal) (r : Row) :
    applyAll (pushIf v (.starts_at x)) r
      = { r with starts_at := if v = .undefined then r.starts_at else x } := by
  rw [applyAll_pushIf]
  by_cases h : v = .undefined <;> simp [h, Assign.apply]

theorem applyAll_pushIf_ends_at (v : JsVal) (x : JsVal) (r : Row) :
    applyAll (pushIf v (.ends_at x)) r
      = { r with ends_at := if v = .undefined then r.ends_at else x } := by
  rw [applyAll_pushIf]
  by_cases h : v = .undefined <;> simp [h, Assign.apply]

theorem applyAll_pushIf_include_pages (v : JsVal) (x : JsVal) (r : Row) :
    applyAll (pushIf v (.include_pages x)) r
      = { r with include_pages := if v = .undefined then r.include_pages else x } := by
  rw [applyAll_pushIf]
  by_cases h : v = .undefined <;> simp [h, Assign.apply]

theorem applyAll_pushIf_exclude_pages (v : JsVal) (x : JsVal) (r : Row) :
    applyAll (pushIf v (.exclude_pages x)) r
      = { r with exclude_pages := if v = .undefined then r.exclude_pages else x } := by
  rw [applyAll_pushIf]
  by_cases h : v = .undefined <;> simp [h, Assign.apply]

/-- The row PATCH writes, column by column: a column whose key is missing from the
body keeps its value, a supplied one takes the parameter built for it. -/
theorem applyAll_patchFields (body : Body) (fields : List Assign)
    (h : patchFields body = some fields) (r : Row) :
    applyAll fields r =
      { r with
        titulo := if body.titulo = .undefined then r.titulo else body.titulo,
        mensaje := if body.mensaje = .undefined then r.mensaje else body.mensaje,
        tipo := if body.tipo = .undefined then r.tipo else body.tipo,
        link_url := if body.link_url = .undefined then r.link_url else body.link_url,
        imagen_url :=
          if body.imagen_url = .undefined then r.imagen_url else body.imagen_url.or .null,
        activo := if body.activo = .undefined then r.activo else boolParam body.activo,
        dismissible :=
          if body.dismissible = .undefined then r.dismissible else boolParam body.dismissible,
        starts_at := if body.starts_at = .undefined then r.starts_at else body.starts_at.or .null,
        ends_at := if body.ends_at = .undefined then r.ends_at else body.ends_at.or .null,
        include_pages :=
          if body.include_pages = .undefined then r.include_pages
          else body.include_pages.or .null,
        exclude_pages :=
          if body.exclude_pages = .undefined then r.exclude_pages
          else body.exclude_pages.or .null } := by
  unfold patchFields at h
  split at h
  · cases h
  · injection h with h
    subst h
    simp only [applyAll_append, applyAll_pushIf_titulo, applyAll_pushIf_mensaje,
      applyAll_pushIf_tipo, applyAll_pushIf_link_url, applyAll_pushIf_imagen_url,
      applyAll_pushIf_activo, applyAll_pushIf_dismissible, applyAll_pushIf_starts_at,
      applyAll_pushIf_ends_at, applyAll_pushIf_include_pages, applyAll_pushIf_exclude_pages]

theorem router_patch_ok (f : Faults) (now id : Nat) (body : Body) (w : World)
    (hs : (router_patch f now id body w).status = 200) :
    ∃ fields, patchFields body = some fields ∧
      (router_patch f now id body w).world =
        { w with rows := w.rows.map (fun r =>
            if r.id == id then { applyAll fields r with updated_at := now } else r) } ∧
      (w.rows.filter (fun r => r.id == id)).length ≠ 0 := by
  cases hp : patchFields body with
  | none => simp [router_patch, hp] at hs
  | some fields =>
    refine ⟨fields, rfl, ?_⟩
    by_cases h1 : fields.length = 0
    · simp [router_patch, hp, h1] at hs
    · by_cases h2 : f.write = true
      · simp [router_patch, hp, h1, h2] at hs
      · by_cases h3 : (w.rows.filter (fun r => r.id == id)).length = 0
        · simp [router_patch, hp, h1, h2, h3] at hs
        · by_cases h4 : f.reread = true
          · simp [router_patch, hp, h1, h2, h3, h4] at hs
          · refine ⟨?_, h3⟩
            simp only [router_patch, hp, h1, h2, h3, h4]
            simp

/-- C9.  After a PATCH that answers 200 the disk and the id counter are unchanged and
the table has the same rows in the same order, where a row with another id is
untouched and a row with the target id (there is one) keeps `id`, `created_at`,
`carousel_images` and every column whose key the body does not supply, and has
`updated_at = now`.  A supplied `titulo`, `mensaje`, `tipo` or `link_url` is stored as
supplied; a supplied `imagen_url`, `starts_at`, `ends_at`, `include_pages` or
`exclude_pages` is stored as supplied when truthy and as NULL otherwise; a supplied
`activo` or `dismissible` is stored as 1 when `toBool` gives true and as 0 otherwise. -/
theorem patch_frame (f : Faults) (now id : Nat) (body : Body) (w : World)
    (hs : (router_patch f now id body w).status = 200) :
    (router_patch f now id body w).world.nextId = w.nextId ∧
    (router_patch f now id body w).world.disk = w.disk ∧
    (∃ old ∈ w.rows, old.id = id) ∧
    List.Forall₂
      (fun old new =>
        (old.id ≠ id → new = old) ∧
        (old.id = id →
          new.id = old.id ∧ new.created_at = old.created_at ∧
          new.carousel_images = old.carousel_images ∧ new.updated_at = now ∧
          new.titulo = (if body.titulo = .undefined then old.titulo else body.titulo) ∧
          new.mensaje = (if body.mensaje = .undefined then old.mensaje else body.mensaje) ∧
          new.tipo = (if body.tipo = .undefined then old.tipo else body.tipo) ∧
          new.link_url = (if body.link_url = .undefined then old.link_url else body.link_url) ∧
          new.imagen_url = (if body.imagen_url = .undefined then old.imagen_url
            else if body.imagen_url.truthy = true then body.imagen_url else .null) ∧
          new.activo = (if body.activo = .undefined then old.activo
            else if toBool body.activo = some true then 1 else 0) ∧
          new.dismissible = (if body.dismissible = .undefined then old.dismissible
            else if toBool body.dismissible = some true then 1 else 0) ∧
          new.starts_at = (if body.starts_at = .undefined then old.starts_at
            else if body.starts_at.truthy = true then body.starts_at else .null) ∧
          new.ends_at = (if body.ends_at = .undefined then old.ends_at
            else if body.ends_at.truthy = true then body.ends_at else .null) ∧
          new.include_pages = (if body.include_pages = .undefined then old.include_pages
            else if body.include_pages.truthy = true then body.include_pages else .null) ∧
          new.exclude_pages = (if body.exclude_pages = .undefined then old.exclude_pages
            else if body.exclude_pages.truthy = true then body.exclude_pages else .null)))
      w.rows (router_patch f now id body w).world.rows := by
  obtain ⟨fields, hp, hw, haff⟩ := router_patch_ok f now id body w hs
  rw [hw]
  refine ⟨rfl, rfl, ?_, ?_⟩
  · obtain ⟨old, hold⟩ := List.exists_mem_of_length_pos (Nat.pos_of_ne_zero haff)
    rw [List.mem_filter] at hold
    exact ⟨old, hold.1, by simpa using hold.2⟩
  · rw [List.forall₂_map_right_iff, List.forall₂_same]
    intro old _
    constructor
    · intro hne
      simp [hne]
    · intro heq
      simp only [heq, beq_self_eq_true, if_true, applyAll_patchFields body fields hp]
      refine ⟨?_, ?_, ?_, ?_, ?_, ?_, ?_, ?_, ?_, ?_, ?_, ?_, ?_, ?_, ?_⟩ <;> trivial

/-- On `twoBanners` at instant 9: switching record 1 off and making it non-dismissible
stores 0 in both flags; switching record 2 on with the string `'TRUE'` and supplying
`dismissible = 0` and an empty `ends_at` stores 1, 0 and NULL.  Record 1 stays active in
the second request: PATCH does not deactivate the other rows.  Nothing but the target
row and its `updated_at` moves. -/
theorem patch_frame_witness :
    (router_patch Faults.none 9 1
        { Body.empty with activo := .str "false", dismissible := .bool false }
        twoBanners).status = 200 ∧
    (router_patch Faults.none 9 1
        { Body.empty with activo := .str "false", dismissible := .bool false }
        twoBanners).world.rows
      = [{ sampleRow 1 "banner" 0 .null with dismissible := 0, updated_at := 9 },
         sampleRow 2 "banner" 0 .null] ∧
    (router_patch Faults.none 9 2
        { Body.empty with activo := .str "TRUE", dismissible := .num 0, ends_at := .str "",
                          titulo := .str "t" }
        twoBanners).world.rows
      = [sampleRow 1 "banner" 1 .null,
         { sampleRow 2 "banner" 1 .null with
             dismissible := 0, ends_at := .null, titulo := .str "t", updated_at := 9 }] ∧
    (router_patch Faults.none 9 1 { Body.empty with activo := .num 1, dismissible := .str "1" }
        twoBanners).world.rows
      = [{ sampleRow 1 "banner" 1 .null with updated_at := 9 }, sampleRow 2 "banner" 0 .null] ∧
    (router_patch Faults.none 9 1
        { Body.empty with activo := .str "false", dismissible := .bool false }
        twoBanners).world.disk = twoBanners.disk :=
  ⟨by decide, by decide, by decide, by decide,
   (patch_frame Faults.none 9 1
      { Body.empty with activo := .str "false", dismissible := .bool false } twoBanners
      (by decide)).2.1⟩

/-! ## PUT -/

theorem selectById_map (id : Nat) (g : Row → Row) (hid : ∀ r, (g r).id = r.id)
    (rows : List Row) : selectById id (rows.map g) = (selectById id rows).map g := by
  unfold selectById
  rw [List.find?_map]
  have : ((fun r : Row => r.id == id) ∘ g) = (fun r : Row => r.id == id) := by
    funext r
    simp [hid r]
  rw [this]

theorem selectById_id {id : Nat} {rows : List Row} {r : Row}
    (h : selectById id rows = some r) : r.id = id := by
  unfold selectById at h
  simpa using List.find?_some h

theorem selectById_mem {id : Nat} {rows : List Row} {r : Row}
    (h : selectById id rows = some r) : r ∈ rows := by
  unfold selectById at h
  exact List.mem_of_find?_eq_some h

theorem selectById_deactivateOthers_some (now id : Nat) (rows : List Row) :
    selectById id (deactivateOthers now (some id) rows) = selectById id rows := by
  unfold deactivateOthers
  simp only []
  rw [selectById_map id _ (by intro r; split <;> simp)]
  cases h : selectById id rows with
  | none => rfl
  | some r => simp [selectById_id h]

theorem flag_reread (a : Nat) (h : a ≤ 1) (d : Bool) :
    (if (toBool (.num (a : Int))).getD d = true then 1 else 0) = a := by
  interval_cases a <;> simp [toBool]

/-- C10.  After a full update that answers 200, on a table whose flags are 0 or 1, the
row read back for the target id has, for each of `titulo`, `mensaje`, `link_url`,
`include_pages`, `exclude_pages`, `starts_at`, `ends_at`, the old value when the key is
missing from the body and the supplied value otherwise (an empty string and null
included); `activo` and `dismissible` keep the old flag when the key is missing and
otherwise store `toBool` of the supplied value (defaults false and true). -/
theorem put_merges_fields (f : Faults) (now id : Nat) (req : Req) (w : World)
    (hflags : flagsOk w.rows)
    (hs : (router_put f now id req w).status = 200) :
    ∃ old new, selectById id w.rows = some old ∧
      selectById id (router_put f now id req w).world.rows = some new ∧
      new.titulo = (if req.body.titulo = .undefined then old.titulo else req.body.titulo) ∧
      new.mensaje = (if req.body.mensaje = .undefined then old.mensaje else req.body.mensaje) ∧
      new.link_url
        = (if req.body.link_url = .undefined then old.link_url else req.body.link_url) ∧
      new.activo = (if req.body.activo = .undefined then old.activo
        else if (toBool req.body.activo).getD false = true then 1 else 0) ∧
      new.dismissible = (if req.body.dismissible = .undefined then old.dismissible
        else if (toBool req.body.dismissible).getD true = true then 1 else 0) ∧
      new.include_pages = (if req.body.include_pages = .undefined then old.include_pages
        else req.body.include_pages) ∧
      new.exclude_pages = (if req.body.exclude_pages = .undefined then old.exclude_pages
        else req.body.exclude_pages) ∧
      new.starts_at
        = (if req.body.starts_at = .undefined then old.starts_at else req.body.starts_at) ∧
      new.ends_at = (if req.body.ends_at = .undefined then old.ends_at else req.body.ends_at) := by
  by_cases h0 : f.lookup = true
  · simp [router_put, h0] at hs
  cases hsel : selectById id w.rows with
  | none => simp [router_put, h0, hsel] at hs
  | some old =>
    have hid := selectById_id hsel
    obtain ⟨hfa, hfd⟩ := hflags old (selectById_mem hsel)
    refine ⟨old, ?_⟩
    simp only [router_put, h0, hsel, handleAnuncioUpdate] at hs ⊢
    by_cases h1 : (req.body.tipo.or old.tipo).truthy = true ∧
        TIPOS_has (req.body.tipo.or old.tipo) = false
    · simp [h1] at hs
    · by_cases h2 : (toBool (merge req.body.activo (.num old.activo))).getD false = true ∧
          f.deactivate = true
      · simp [h1, h2] at hs
      · by_cases h3 : f.write = true
        · simp [h1, h2, h3] at hs
        · by_cases h4 : f.reread = true
          · simp [h1, h2, h3, h4] at hs
          · simp only [h1, h2, h3, h4, if_false, Bool.false_eq_true]
            rw [selectById_map id _ (by intro r; split <;> rfl)]
            have hsel1 : selectById id
                (if (toBool (merge req.body.activo (.num old.activo))).getD false = true
                  then deactivateOthers now (some id) w.rows else w.rows) = some old := by
              split
              · rw [selectById_deactivateOthers_some, hsel]
              · exact hsel
            rw [hsel1]
            simp only [Option.map_some', hid, beq_self_eq_true, if_true]
            refine ⟨_, trivial, rfl, ?_⟩
            refine ⟨?_, ?_, ?_, ?_, ?_, ?_, ?_, ?_, ?_⟩
            · simp [merge]
            · simp [merge]
            · simp [merge]
            · by_cases hb : req.body.activo = .undefined
              · simp only [merge, hb, ne_eq, not_true_eq_false, if_false, if_true]
                exact flag_reread old.activo hfa false
              · simp only [merge, hb, ne_eq, not_false_eq_true, if_false, if_true]
            · by_cases hb : req.body.dismissible = .undefined
              · simp only [merge, hb, ne_eq, not_true_eq_false, if_false, if_true]
                exact flag_reread old.dismissible hfd true
              · simp only [merge, hb, ne_eq, not_false_eq_true, if_false, if_true]
            · simp [merge]
            · simp [merge]
            · simp [merge]
            · simp [merge]

/-- A full update of record 1 with a title, an empty message and `activo = '0'`. -/
theorem put_merges_fields_witness :
    (router_put Faults.none 9 1 retitleReq (uploadFields retitleReq twoBanners)).status = 200 ∧
    selectById 1 (router_put Faults.none 9 1 retitleReq
        (uploadFields retitleReq twoBanners)).world.rows
      = some { sampleRow 1 "banner" 0 .null with
          titulo := .str "Sale", mensaje := .str "", updated_at := 9 } ∧
    ∃ old new, selectById 1 (uploadFields retitleReq twoBanners).rows = some old ∧
      selectById 1 (router_put Faults.none 9 1 retitleReq
        (uploadFields retitleReq twoBanners)).world.rows = some new ∧
      new.titulo = .str "Sale" ∧ new.mensaje = .str "" ∧ new.link_url = old.link_url ∧
      new.activo = 0 ∧ new.dismissible = old.dismissible :=
  have h := put_merges_fields Faults.none 9 1 retitleReq (uploadFields retitleReq twoBanners)
    (by decide) (by decide)
  ⟨by decide, by decide,
   match h with
   | ⟨old, new, h1, h2, h3, h4, h5, h6, h7, _⟩ => ⟨old, new, h1, h2, h3, h4, h5, h6, h7⟩⟩

/-! ## The single-active rule on the two paths that enforce it -/

theorem activeCount_deactivateOthers_none (now : Nat) (rows : List Row) :
    activeCount (deactivateOthers now none rows) = 0 := by
  unfold activeCount
  rw [filter_activo_deactivateOthers_none]
  rfl

theorem activeCount_append (xs ys : List Row) :
    activeCount (xs ++ ys) = activeCount xs + activeCount ys := by
  simp [activeCount, List.filter_append]

/-- The tables POST can leave behind. -/
theorem router_post_rows (f : Faults) (now : Nat) (req : Req) (w : World) :
    (router_post f now req w).world.rows = w.rows ∨
    (router_post f now req w).world.rows = deactivateOthers now none w.rows ∨
    (∃ row, row.dismissible ≤ 1 ∧ row.activo = 1 ∧
      (router_post f now req w).world.rows = deactivateOthers now none w.rows ++ [row]) ∨
    (∃ row, row.dismissible ≤ 1 ∧ row.activo = 0 ∧
      (router_post f now req w).world.rows = w.rows ++ [row]) := by
  cases hl : lowerTipo req.body.tipo with
  | none => left; simp [router_post, hl]
  | some tipo =>
    simp only [router_post, hl]
    by_cases c1 : tipo = "" ∨ tipo ∉ TIPOS
    · left; rw [if_pos c1]
    rw [if_neg c1]
    by_cases c2 : tipo = "carousel" ∧ primaryFile req = none
    · left; rw [if_pos c2]
    rw [if_neg c2]
    by_cases c3 : tipo = "carousel" ∧ req.carousel_images.length < 2
    · left; rw [if_pos c3]
    rw [if_neg c3]
    by_cases c4 : (toBool req.body.activo).getD true = true ∧ f.deactivate = true
    · left; rw [if_pos c4]
    rw [if_neg c4]
    by_cases hact : (toBool req.body.activo).getD true = true
    · simp only [hact, if_true]
      by_cases c5 : f.write = true
      · right; left; simp [c5]
      · right; right; left
        by_cases c6 : f.reread = true <;> simp [c5, c6] <;> split <;> simp
    · simp only [hact, if_false]
      by_cases c5 : f.write = true
      · left; simp [c5]
      · right; right; right
        by_cases c6 : f.reread = true <;> simp [c5, c6] <;> split <;> simp

/-- POST keeps the single-active rule, whatever its outcome. -/
theorem post_keeps_single_active (f : Faults) (now : Nat) (req : Req) (w : World)
    (h : activeCount w.rows ≤ 1) : activeCount (router_post f now req w).world.rows ≤ 1 := by
  rcases router_post_rows f now req w with h1 | h1 | ⟨row, -, -, h1⟩ | ⟨row, -, h0, h1⟩
  · rw [h1]; exact h
  · rw [h1, activeCount_deactivateOthers_none]; omega
  · rw [h1, activeCount_append, activeCount_deactivateOthers_none]
    simp only [activeCount, zero_add]
    exact (List.length_filter_le _ _)
  · rw [h1, activeCount_append]
    have : activeCount [row] = 0 := by simp [activeCount, h0]
    omega

theorem activeCount_le_of_id (x : Nat) (l : List Row)
    (h : ∀ r ∈ l, r.activo = 1 → r.id = x) :
    activeCount l ≤ (l.filter (fun r => r.id == x)).length := by
  induction l with
  | nil => simp [activeCount]
  | cons a t ih =>
    have iht := ih (fun r hr => h r (List.mem_cons_of_mem _ hr))
    have ha := h a (List.mem_cons_self _ _)
    unfold activeCount at iht ⊢
    by_cases h1 : a.activo = 1
    · simp only [List.filter_cons, h1, beq_self_eq_true, if_true, ha h1, List.length_cons]
      omega
    · have h1b : (a.activo == 1) = false := by simpa using h1
      simp only [List.filter_cons, h1b, Bool.false_eq_true, if_false]
      by_cases h2 : (a.id == x) = true
      · simp only [h2, if_true, List.length_cons]; omega
      · simp only [h2, if_false]; exact iht

theorem filter_id_length_le_one (x : Nat) (l : List Row) (h : (l.map (fun r => r.id)).Nodup) :
    (l.filter (fun r => r.id == x)).length ≤ 1 := by
  induction l with
  | nil => simp
  | cons a t ih =>
    rw [List.map_cons, List.nodup_cons] at h
    by_cases ha : a.id = x
    · have hnone : t.filter (fun r => r.id == x) = [] := by
        rw [List.filter_eq_nil_iff]
        intro r hr hrx
        apply h.1
        rw [List.mem_map]
        exact ⟨r, hr, by rw [ha]; simpa using hrx⟩
      simp [List.filter_cons, ha, hnone]
    · have hab : (a.id == x) = false := by simpa using ha
      simp only [List.filter_cons, hab]
      exact ih h.2

theorem filter_id_length_map (x : Nat) (g : Row → Row) (hid : ∀ r, (g r).id = r.id)
    (l : List Row) :
    ((l.map g).filter (fun r => r.id == x)).length = (l.filter (fun r => r.id == x)).length := by
  induction l with
  | nil => rfl
  | cons a t ih =>
    simp only [List.map_cons, List.filter_cons, hid a]
    split <;> simp [ih]

theorem activeCount_map_le (g : Row → Row) (hg : ∀ r, (g r).activo = 1 → r.activo = 1)
    (l : List Row) : activeCount (l.map g) ≤ activeCount l := by
  induction l with
  | nil => simp [activeCount]
  | cons a t ih =>
    unfold activeCount at ih ⊢
    simp only [List.map_cons, List.filter_cons]
    by_cases h1 : (g a).activo = 1
    · simp only [h1, hg a h1, beq_self_eq_true, if_true, List.length_cons]
      omega
    · have h1b : ((g a).activo == 1) = false := by simpa using h1
      simp only [h1b, Bool.false_eq_true, if_false]
      by_cases h2 : (a.activo == 1) = true
      · simp only [h2, if_true, List.length_cons]; omega
      · simp only [h2, if_false]; exact ih

/-- The tables PUT can leave behind. -/
theorem router_put_rows (f : Faults) (now id : Nat) (req : Req) (w : World) :
    (router_put f now id req w).world.rows = w.rows ∨
    (router_put f now id req w).world.rows = deactivateOthers now (some id) w.rows ∨
    (∃ u : Row → Row, (∀ r, (u r).id = r.id) ∧ (∀ r, (u r).dismissible ≤ 1) ∧
      (∀ r, (u r).activo = 1) ∧
      (router_put f now id req w).world.rows
        = (deactivateOthers now (some id) w.rows).map (fun r => if r.id == id then u r else r)) ∨
    (∃ u : Row → Row, (∀ r, (u r).dismissible ≤ 1) ∧ (∀ r, (u r).activo = 0) ∧
      (router_put f now id req w).world.rows
        = w.rows.map (fun r => if r.id == id then u r else r)) := by
  by_cases h0 : f.lookup = true
  · left; simp [router_put, h0]
  cases hsel : selectById id w.rows with
  | none => left; simp [router_put, h0, hsel]
  | some old =>
    simp only [router_put, h0, hsel, handleAnuncioUpdate, Bool.false_eq_true, if_false]
    by_cases c1 : (req.body.tipo.or old.tipo).truthy = true ∧
        TIPOS_has (req.body.tipo.or old.tipo) = false
    · left; rw [if_pos c1]
    rw [if_neg c1]
    by_cases c2 : (toBool (merge req.body.activo (.num old.activo))).getD false = true ∧
        f.deactivate = true
    · left; rw [if_pos c2]
    rw [if_neg c2]
    by_cases hact : (toBool (merge req.body.activo (.num old.activo))).getD false = true
    · by_cases c3 : f.write = true
      · right; left; simp [c3, hact]
      · right; right; left
        refine ⟨fun r => { r with
          tipo := req.body.tipo.or old.tipo,
          titulo := merge req.body.titulo old.titulo,
          mensaje := merge req.body.mensaje old.mensaje,
          link_url := merge req.body.link_url old.link_url,
          imagen_url := (match primaryFile req with
            | some fn => .str (anunciosPath fn)
            | none => old.imagen_url),
          carousel_images :=
            (if req.body.tipo.or old.tipo = .str "carousel" then
              if 0 < req.carousel_images.length then some (req.carousel_images.map carouselsPath)
              else old.carousel_images
            else if old.tipo = .str "carousel" ∧ old.carousel_images ≠ none then none
            else old.carousel_images),
          activo := 1,
          dismissible :=
            if (toBool (merge req.body.dismissible (.num old.dismissible))).getD true = true
            then 1 else 0,
          include_pages := merge req.body.include_pages old.include_pages,
          exclude_pages := merge req.body.exclude_pages old.exclude_pages,
          starts_at := merge req.body.starts_at old.starts_at,
          ends_at := merge req.body.ends_at old.ends_at,
          updated_at := now }, fun _ => rfl, fun _ => by dsimp only; split <;> omega,
          fun _ => rfl, ?_⟩
        by_cases c4 : f.reread = true <;> simp [c3, c4, hact]
    · by_cases c3 : f.write = true
      · left; simp [c3, hact]
      · right; right; right
        refine ⟨fun r => { r with
          tipo := req.body.tipo.or old.tipo,
          titulo := merge req.body.titulo old.titulo,
          mensaje := merge req.body.mensaje old.mensaje,
          link_url := merge req.body.link_url old.link_url,
          imagen_url := (match primaryFile req with
            | some fn => .str (anunciosPath fn)
            | none => old.imagen_url),
          carousel_images :=
            (if req.body.tipo.or old.tipo = .str "carousel" then
              if 0 < req.carousel_images.length then some (req.carousel_images.map carouselsPath)
              else old.carousel_images
            else if old.tipo = .str "carousel" ∧ old.carousel_images ≠ none then none
            else old.carousel_images),
          activo := 0,
          dismissible :=
            if (toBool (merge req.body.dismissible (.num old.dismissible))).getD true = true
            then 1 else 0,
          include_pages := merge req.body.include_pages old.include_pages,
          exclude_pages := merge req.body.exclude_pages old.exclude_pages,
          starts_at := merge req.body.starts_at old.starts_at,
          ends_at := merge req.body.ends_at old.ends_at,
          updated_at := now }, fun _ => by dsimp only; split <;> omega, fun _ => rfl, ?_⟩
        by_cases c4 : f.reread = true <;> simp [c3, c4, hact]

/-- PUT keeps the single-active rule on a table with distinct ids, whatever its outcome. -/
theorem put_keeps_single_active (f : Faults) (now id : Nat) (req : Req) (w : World)
    (hids : (w.rows.map (fun r => r.id)).Nodup) (h : activeCount w.rows ≤ 1) :
    activeCount (router_put f now id req w).world.rows ≤ 1 := by
  have hone := filter_id_length_le_one id w.rows hids
  have hD : ∀ r ∈ deactivateOthers now (some id) w.rows, r.activo = 1 → r.id = id := by
    intro r hr hact
    simp only [deactivateOthers, List.mem_map] at hr
    obtain ⟨o, -, rfl⟩ := hr
    by_cases ho : o.id = id
    · simp [ho]
    · simp [ho] at hact
  have hDlen : ((deactivateOthers now (some id) w.rows).filter (fun r => r.id == id)).length
      = (w.rows.filter (fun r => r.id == id)).length := by
    simp only [deactivateOthers]
    exact filter_id_length_map id _ (by intro r; split <;> simp) w.rows
  rcases router_put_rows f now id req w with h1 | h1 | ⟨u, hu, -, -, h1⟩ | ⟨u, -, hu, h1⟩
  · rw [h1]; exact h
  · rw [h1]
    exact le_trans (activeCount_le_of_id id _ hD) (by rw [hDlen]; exact hone)
  · rw [h1]
    refine le_trans (activeCount_le_of_id id _ ?_) ?_
    · intro r hr hact
      rw [List.mem_map] at hr
      obtain ⟨o, ho, rfl⟩ := hr
      by_cases hoid : o.id = id
      · simp [hoid, hu o]
      · have hoid' : (o.id == id) = false := by simpa using hoid
        simp only [hoid', Bool.false_eq_true, if_false] at hact ⊢
        exact absurd (hD o ho hact) hoid
    · rw [filter_id_length_map id _ (by intro r; split <;> simp [hu r]), hDlen]
      exact hone
  · rw [h1]
    refine le_trans (activeCount_map_le _ ?_ w.rows) h
    intro r hr
    by_cases hoid : r.id = id
    · simp [hoid, hu r] at hr
    · have hoid' : (r.id == id) = false := by simpa using hoid
      simpa [hoid'] using hr

/-! ## The flags stay 0 or 1 -/

theorem flagsOk_deactivateOthers (now : Nat) (x : Option Nat) (rows : List Row)
    (h : flagsOk rows) :
    flagsOk (deactivateOthers now x rows) := by
  intro r hr
  cases x with
  | none =>
    simp only [deactivateOthers, List.mem_map] at hr
    obtain ⟨o, ho, rfl⟩ := hr
    exact ⟨by simp, by simpa using (h o ho).2⟩
  | some i =>
    simp only [deactivateOthers, List.mem_map] at hr
    obtain ⟨o, ho, rfl⟩ := hr
    split
    · exact ⟨by simp, by simpa using (h o ho).2⟩
    · exact h o ho

theorem flagsOk_map_update (id : Nat) (u : Row → Row) (rows : List Row) (h : flagsOk rows)
    (hu : ∀ r, (u r).activo ≤ 1 ∧ (u r).dismissible ≤ 1) :
    flagsOk (rows.map (fun r => if r.id == id then u r else r)) := by
  intro r hr
  rw [List.mem_map] at hr
  obtain ⟨o, ho, rfl⟩ := hr
  split
  · exact hu o
  · exact h o ho

/-- POST stores 0 or 1 in both flags. -/
theorem post_keeps_flags (f : Faults) (now : Nat) (req : Req) (w : World)
    (h : flagsOk w.rows) : flagsOk (router_post f now req w).world.rows := by
  have hD := flagsOk_deactivateOthers now none w.rows h
  rcases router_post_rows f now req w with h1 | h1 | ⟨row, hd, ha, h1⟩ | ⟨row, hd, ha, h1⟩
  · rw [h1]; exact h
  · rw [h1]; exact hD
  · rw [h1]
    intro r hr
    rcases List.mem_append.mp hr with hr | hr
    · exact hD r hr
    · rw [List.mem_singleton] at hr
      subst hr
      exact ⟨by omega, hd⟩
  · rw [h1]
    intro r hr
    rcases List.mem_append.mp hr with hr | hr
    · exact h r hr
    · rw [List.mem_singleton] at hr
      subst hr
      exact ⟨by omega, hd⟩

/-- PUT stores 0 or 1 in both flags. -/
theorem put_keeps_flags (f : Faults) (now id : Nat) (req : Req) (w : World)
    (h : flagsOk w.rows) : flagsOk (router_put f now id req w).world.rows := by
  have hD := flagsOk_deactivateOthers now (some id) w.rows h
  rcases router_put_rows f now id req w with h1 | h1 | ⟨u, -, hd, ha, h1⟩ | ⟨u, hd, ha, h1⟩
  · rw [h1]; exact h
  · rw [h1]; exact hD
  · rw [h1]
    exact flagsOk_map_update id u _ hD (fun r => ⟨by rw [ha r], hd r⟩)
  · rw [h1]
    exact flagsOk_map_update id u _ h (fun r => ⟨by rw [ha r]; omega, hd r⟩)

theorem boolParam_le_one (v : JsVal) : boolParam v ≤ 1 := by
  unfold boolParam
  split <;> omega

/-- PATCH stores 0 or 1 in both flags. -/
theorem patch_keeps_flags (f : Faults) (now id : Nat) (body : Body) (w : World)
    (h : flagsOk w.rows) : flagsOk (router_patch f now id body w).world.rows := by
  cases hp : patchFields body with
  | none => simpa [router_patch, hp] using h
  | some fields =>
    have hmap : flagsOk (w.rows.map (fun r =>
        if r.id == id then { applyAll fields r with updated_at := now } else r)) := by
      intro r hr
      rw [List.mem_map] at hr
      obtain ⟨o, ho, rfl⟩ := hr
      split
      · rw [applyAll_patchFields body fields hp]
        dsimp only
        constructor
        · split
          · exact (h o ho).1
          · exact boolParam_le_one _
        · split
          · exact (h o ho).2
          · exact boolParam_le_one _
      · exact h o ho
    simp only [router_patch, hp]
    split_ifs <;> first | exact h | exact hmap

/-- DELETE removes rows and changes none. -/
theorem delete_keeps_flags (f : Faults) (id : Nat) (w : World)
    (h : flagsOk w.rows) : flagsOk (router_delete f id w).world.rows := by
  have hfil : flagsOk (w.rows.filter (fun r => r.id != id)) :=
    fun r hr => h r (List.mem_filter.mp hr).1
  by_cases h0 : f.lookup = true
  · simpa [router_delete, h0] using h
  cases hsel : selectById id w.rows with
  | none => simpa [router_delete, h0, hsel] using h
  | some record =>
    by_cases h1 : f.write = true
    · simpa [router_delete, h0, hsel, h1] using h
    · simpa [router_delete, h0, hsel, h1] using hfil

/-! ## PUT on an unknown id -/

/-- C11.  A full update whose id matches no row (the lookup itself succeeding) answers
404 after one SELECT, leaves the rows and the id counter as they were, and none of the
files the request uploaded is left on disk. -/
theorem put_unknown_id_cleans_up (f : Faults) (now id : Nat) (req : Req) (w : World)
    (hwf : req.wellFormed) (hf : f.lookup = false) (hnone : selectById id w.rows = none) :
    (router_put f now id req (uploadFields req w)).status = 404 ∧
    (router_put f now id req (uploadFields req w)).log = [.select] ∧
    (router_put f now id req (uploadFields req w)).world.rows = w.rows ∧
    (router_put f now id req (uploadFields req w)).world.nextId = w.nextId ∧
    ∀ file ∈ uploaded req,
      file ∉ (router_put f now id req (uploadFields req w)).world.disk := by
  have hres : router_put f now id req (uploadFields req w)
      = ⟨404, none, { w with disk := cleanupByFields req (w.disk ++ uploaded req) },
          [.select]⟩ := by
    have hnone2 : selectById id (uploadFields req w).rows = none := hnone
    simp only [router_put, hf, hnone2, Bool.false_eq_true, if_false]
    rfl
  rw [hres]
  exact ⟨rfl, rfl, rfl, rfl, not_mem_cleanupByFields req _ hwf⟩

/-- A full update of the unknown id 7 that uploads a primary image and two slides. -/
theorem put_unknown_id_cleans_up_witness :
    replaceImagesReq.wellFormed ∧ selectById 7 twoBanners.rows = none ∧
    (router_put Faults.none 9 7 replaceImagesReq
      (uploadFields replaceImagesReq twoBanners)).status = 404 ∧
    (router_put Faults.none 9 7 replaceImagesReq
      (uploadFields replaceImagesReq twoBanners)).world = twoBanners :=
  have h := put_unknown_id_cleans_up Faults.none 9 7 replaceImagesReq twoBanners
    (by decide) rfl (by decide)
  ⟨by decide, by decide, h.1, by decide⟩

/-! ## PUT: what a successful update stores and deletes -/

/-- A full update that answers 200 found a row `old`, left the disk `putDisk` describes
and stored the kind, primary image path and slide list computed from `old`. -/
theorem router_put_ok (f : Faults) (now id : Nat) (req : Req) (w : World)
    (hs : (router_put f now id req w).status = 200) :
    ∃ old, selectById id w.rows = some old ∧
      ((req.body.tipo.or old.tipo).truthy = true →
        TIPOS_has (req.body.tipo.or old.tipo) = true) ∧
      (router_put f now id req w).world.disk
        = putDisk req old (req.body.tipo.or old.tipo) w.disk ∧
      ∃ new, selectById id (router_put f now id req w).world.rows = some new ∧
        new.tipo = req.body.tipo.or old.tipo ∧
        new.imagen_url = putImagenUrl req old ∧
        new.carousel_images = putSlides req old (req.body.tipo.or old.tipo) := by
  by_cases h0 : f.lookup = true
  · simp [router_put, h0] at hs
  cases hsel : selectById id w.rows with
  | none => simp [router_put, h0, hsel] at hs
  | some old =>
    have hid := selectById_id hsel
    refine ⟨old, rfl, ?_⟩
    simp only [router_put, h0, hsel, handleAnuncioUpdate] at hs ⊢
    by_cases h1 : (req.body.tipo.or old.tipo).truthy = true ∧
        TIPOS_has (req.body.tipo.or old.tipo) = false
    · simp [h1] at hs
    · by_cases h2 : (toBool (merge req.body.activo (.num old.activo))).getD false = true ∧
          f.deactivate = true
      · simp [h1, h2] at hs
      · by_cases h3 : f.write = true
        · simp [h1, h2, h3] at hs
        · by_cases h4 : f.reread = true
          · simp [h1, h2, h3, h4] at hs
          · simp only [h1, h2, h3, h4, if_false, Bool.false_eq_true]
            refine ⟨?_, rfl, ?_⟩
            · intro ht
              by_contra hn
              exact h1 ⟨ht, by simpa using hn⟩
            · rw [selectById_map id _ (by intro r; split <;> rfl)]
              have hsel1 : selectById id
                  (if (toBool (merge req.body.activo (.num old.activo))).getD false = true
                    then deactivateOthers now (some id) w.rows else w.rows) = some old := by
                split
                · rw [selectById_deactivateOthers_some, hsel]
                · exact hsel
              rw [hsel1]
              simp only [Option.map_some', hid, beq_self_eq_true, if_true]
              exact ⟨_, rfl, rfl, rfl, rfl⟩

theorem mem_of_mem_deleteCarouselImages {imgs : Option (List String)} {g : DiskFile}
    {disk : Disk} (h : g ∈ deleteCarouselImages imgs disk) : g ∈ disk := by
  cases imgs with
  | none => exact h
  | some l =>
    simp only [deleteCarouselImages] at h
    induction l generalizing disk with
    | nil => exact h
    | cons a t ih => exact mem_of_mem_deleteImageFile (ih h)

theorem not_mem_deleteCarouselImages (imgs : List String) (disk : Disk) :
    ∀ p ∈ imgs, p ≠ "" →
      (UploadDir.carousels, basename p) ∉ deleteCarouselImages (some imgs) disk := by
  induction imgs generalizing disk with
  | nil => intro p hp; cases hp
  | cons a t ih =>
    intro p hp hne hmem
    have hstep : deleteCarouselImages (some (a :: t)) disk
        = deleteCarouselImages (some t) (deleteImageFile (.str a) true disk) := rfl
    rw [hstep] at hmem
    rcases List.mem_cons.mp hp with rfl | ht
    · have hm := mem_of_mem_deleteCarouselImages hmem
      simp only [deleteImageFile, hne, if_false, if_true] at hm
      exact not_mem_unlinkIfExists _ _ hm
    · exact ih _ p ht hne hmem

theorem carousels_mem_deleteImageFile_false (v : JsVal) (fn : String) (disk : Disk)
    (h : (UploadDir.carousels, fn) ∈ disk) :
    (UploadDir.carousels, fn) ∈ deleteImageFile v false disk := by
  unfold deleteImageFile
  split
  · split
    · exact h
    · exact mem_unlinkIfExists_of_ne (by simp) h
  · exact h

/-- C12.  After a full update that answers 200, with `old` the row found and `new` the
row read back: when the resulting kind is not `carousel` and the old kind was, the slide
list is NULL and no old slide is on disk; when the resulting kind is `carousel` and
slides were uploaded, the slide list is the uploaded paths in upload order and no old
slide is on disk; in every other case the slide list is the old one and every file of
the carousel directory is still there. -/
theorem put_slide_list (f : Faults) (now id : Nat) (req : Req) (w : World)
    (hs : (router_put f now id req w).status = 200) :
    ∃ old new, selectById id w.rows = some old ∧
      selectById id (router_put f now id req w).world.rows = some new ∧
      new.tipo = req.body.tipo.or old.tipo ∧
      (new.tipo ≠ .str "carousel" → old.tipo = .str "carousel" →
        new.carousel_images = none ∧
        ∀ p ∈ old.carousel_images.getD [], p ≠ "" →
          (UploadDir.carousels, basename p) ∉ (router_put f now id req w).world.disk) ∧
      (new.tipo = .str "carousel" → req.carousel_images ≠ [] →
        new.carousel_images = some (req.carousel_images.map carouselsPath) ∧
        ∀ p ∈ old.carousel_images.getD [], p ≠ "" →
          (UploadDir.carousels, basename p) ∉ (router_put f now id req w).world.disk) ∧
      (¬ (new.tipo ≠ .str "carousel" ∧ old.tipo = .str "carousel") →
        ¬ (new.tipo = .str "carousel" ∧ req.carousel_images ≠ []) →
        new.carousel_images = old.carousel_images ∧
        ∀ fn, (UploadDir.carousels, fn) ∈ w.disk →
          (UploadDir.carousels, fn) ∈ (router_put f now id req w).world.disk) := by
  obtain ⟨old, hsel, -, hdisk, new, hnew, htipo, -, hslides⟩ := router_put_ok f now id req w hs
  refine ⟨old, new, hsel, hnew, htipo, ?_, ?_, ?_⟩
  · intro hnc hoc
    rw [htipo] at hnc
    rw [hdisk, hslides]
    cases hci : old.carousel_images with
    | none =>
      have hcond : ¬ (old.tipo = .str "carousel" ∧ old.carousel_images ≠ none) := by
        simp [hci]
      refine ⟨?_, ?_⟩
      · simp only [putSlides, if_neg hnc, if_neg hcond]
        exact hci
      · intro p hp
        simp at hp
    | some l =>
      have hcond : old.tipo = .str "carousel" ∧ old.carousel_images ≠ none := by
        simp [hci, hoc]
      refine ⟨?_, ?_⟩
      · simp only [putSlides, if_neg hnc, if_pos hcond]
      · intro p hp hne
        have hp' : p ∈ l := by simpa using hp
        simp only [putDisk, if_neg hnc, if_pos hcond]
        rw [hci]
        exact not_mem_deleteCarouselImages l _ p hp' hne
  · intro hc hup
    rw [htipo] at hc
    have hlen : 0 < req.carousel_images.length := List.length_pos.mpr hup
    rw [hdisk, hslides]
    refine ⟨?_, ?_⟩
    · simp only [putSlides, if_pos hc, if_pos hlen]
    · intro p hp hne
      cases hci : old.carousel_images with
      | none => simp [hci] at hp
      | some l =>
        have hp' : p ∈ l := by simpa [hci] using hp
        simp only [putDisk, if_pos hc, if_pos hlen]
        rw [hci]
        exact not_mem_deleteCarouselImages l _ p hp' hne
  · intro ha hb
    rw [htipo] at ha hb
    rw [hdisk, hslides]
    have hd1 : ∀ fn, (UploadDir.carousels, fn) ∈ w.disk →
        (UploadDir.carousels, fn) ∈ (match primaryFile req with
          | some _ =>
            if old.imagen_url.truthy then deleteImageFile old.imagen_url false w.disk
            else w.disk
          | none => w.disk) := by
      intro fn hfn
      split
      · split
        · exact carousels_mem_deleteImageFile_false _ _ _ hfn
        · exact hfn
      · exact hfn
    by_cases hc : req.body.tipo.or old.tipo = .str "carousel"
    · have hlen : ¬ 0 < req.carousel_images.length := by
        intro hl
        exact hb ⟨hc, List.length_pos.mp hl⟩
      refine ⟨?_, ?_⟩
      · simp only [putSlides, if_pos hc, if_neg hlen]
      · simp only [putDisk, if_pos hc, if_neg hlen]
        exact hd1
    · have hcond : ¬ (old.tipo = .str "carousel" ∧ old.carousel_images ≠ none) :=
        fun h => ha ⟨hc, h.1⟩
      refine ⟨?_, ?_⟩
      · simp only [putSlides, if_neg hc, if_neg hcond]
      · simp only [putDisk, if_neg hc, if_neg hcond]
        exact hd1

/-- The carousel of `afterCarousel` becomes a banner: its slide list is cleared and its
two slide files are deleted. -/
theorem put_slide_list_witness :
    (router_put Faults.none 9 1 toBannerReq afterCarousel).status = 200 ∧
    (selectById 1 (router_put Faults.none 9 1 toBannerReq afterCarousel).world.rows).map
        (fun r => (r.tipo, r.carousel_images)) = some (.str "banner", none) ∧
    (router_put Faults.none 9 1 toBannerReq afterCarousel).world.disk
      = [(UploadDir.anuncios, "anuncio-1-a.png")] ∧
    ∃ old new, selectById 1 afterCarousel.rows = some old ∧
      selectById 1 (router_put Faults.none 9 1 toBannerReq afterCarousel).world.rows
        = some new ∧
      new.tipo = toBannerReq.body.tipo.or old.tipo :=
  ⟨by decide, by decide, by decide,
   match put_slide_list Faults.none 9 1 toBannerReq afterCarousel (by decide) with
   | ⟨old, new, h1, h2, h3, _⟩ => ⟨old, new, h1, h2, h3⟩⟩

/-! ## The slide rule -/

/-- C13 (failing inputs).  In `afterCarousel` every row obeys the slide rule.  `PATCH /1`
with body `tipo: 'banner'` answers 200 and leaves a banner that still has its two
slides; `PUT /1` uploading a single slide answers 200 and leaves a carousel with one
slide.  After either request the rule is broken. -/
theorem update_breaks_slide_rule :
    (∀ r ∈ afterCarousel.rows, slidesOk r) ∧
    (router_patch Faults.none 9 1 { Body.empty with tipo := .str "banner" }
      afterCarousel).status = 200 ∧
    (selectById 1 (router_patch Faults.none 9 1 { Body.empty with tipo := .str "banner" }
      afterCarousel).world.rows).map (fun r => (r.tipo, r.carousel_images))
      = some (.str "banner",
          some ["/uploads/carousels/slide-1-b.png", "/uploads/carousels/slide-1-c.png"]) ∧
    ¬ (∀ r ∈ (router_patch Faults.none 9 1 { Body.empty with tipo := .str "banner" }
      afterCarousel).world.rows, slidesOk r) ∧
    (router_put Faults.none 9 1 oneNewSlideReq
      (uploadFields oneNewSlideReq afterCarousel)).status = 200 ∧
    (selectById 1 (router_put Faults.none 9 1 oneNewSlideReq
      (uploadFields oneNewSlideReq afterCarousel)).world.rows).map
        (fun r => (r.tipo, r.carousel_images))
      = some (.str "carousel", some ["/uploads/carousels/slide-6-m.png"]) ∧
    ¬ (∀ r ∈ (router_put Faults.none 9 1 oneNewSlideReq
      (uploadFields oneNewSlideReq afterCarousel)).world.rows, slidesOk r) := by
  decide

theorem slidesOk_of_create (r : Row) (tipo : String) (slides : List String)
    (ht : r.tipo = .str tipo)
    (hc : r.carousel_images
      = if tipo = "carousel" then some (slides.map carouselsPath) else none)
    (h3 : ¬ (tipo = "carousel" ∧ slides.length < 2)) : slidesOk r := by
  unfold slidesOk
  rw [ht, hc]
  by_cases hk : tipo = "carousel"
  · have hlen : 2 ≤ slides.length := by
      by_contra hn
      exact h3 ⟨hk, by omega⟩
    simp [hk, hlen]
  · simp [hk]

theorem slidesOk_deactivateOthers (now : Nat) (x : Option Nat) (rows : List Row)
    (h : ∀ r ∈ rows, slidesOk r) : ∀ r ∈ deactivateOthers now x rows, slidesOk r := by
  intro r hr
  cases x with
  | none =>
    simp only [deactivateOthers, List.mem_map] at hr
    obtain ⟨o, ho, rfl⟩ := hr
    simpa [slidesOk] using h o ho
  | some i =>
    simp only [deactivateOthers, List.mem_map] at hr
    obtain ⟨o, ho, rfl⟩ := hr
    split
    · simpa [slidesOk] using h o ho
    · exact h o ho

/-- POST keeps the slide rule, whatever its outcome: the row it inserts obeys it. -/
theorem post_keeps_slidesOk (f : Faults) (now : Nat) (req : Req) (w : World)
    (h : ∀ r ∈ w.rows, slidesOk r) :
    ∀ r ∈ (router_post f now req w).world.rows, slidesOk r := by
  have hD := slidesOk_deactivateOthers now none w.rows h
  cases hl : lowerTipo req.body.tipo with
  | none => simpa [router_post, hl] using h
  | some tipo =>
    simp only [router_post, hl]
    by_cases c1 : tipo = "" ∨ tipo ∉ TIPOS
    · rw [if_pos c1]; exact h
    rw [if_neg c1]
    by_cases c2 : tipo = "carousel" ∧ primaryFile req = none
    · rw [if_pos c2]; exact h
    rw [if_neg c2]
    by_cases c3 : tipo = "carousel" ∧ req.carousel_images.length < 2
    · rw [if_pos c3]; exact h
    rw [if_neg c3]
    by_cases c4 : (toBool req.body.activo).getD true = true ∧ f.deactivate = true
    · rw [if_pos c4]; exact h
    rw [if_neg c4]
    have hrows1 : ∀ r ∈ (if (toBool req.body.activo).getD true = true
        then deactivateOthers now none w.rows else w.rows), slidesOk r := by
      split
      · exact hD
      · exact h
    by_cases c5 : f.write = true
    · rw [if_pos c5]; exact hrows1
    rw [if_neg c5]
    have hnew : ∀ r ∈ (if (toBool req.body.activo).getD true = true
        then deactivateOthers now none w.rows else w.rows) ++
        [({ id := w.nextId, tipo := .str tipo,
            titulo := defaultNull req.body.titulo,
            mensaje := defaultNull req.body.mensaje,
            link_url := defaultNull req.body.link_url,
            imagen_url := (match primaryFile req with
              | some fn => JsVal.str (anunciosPath fn)
              | none => JsVal.null),
            carousel_images :=
              if tipo = "carousel" then some (req.carousel_images.map carouselsPath) else none,
            activo := if (toBool req.body.activo).getD true = true then 1 else 0,
            dismissible := if (toBool req.body.dismissible).getD true = true then 1 else 0,
            include_pages := defaultNull req.body.include_pages,
            exclude_pages := defaultNull req.body.exclude_pages,
            starts_at := defaultNull req.body.starts_at,
            ends_at := defaultNull req.body.ends_at,
            created_at := now, updated_at := now } : Row)], slidesOk r := by
      intro r hr
      rcases List.mem_append.mp hr with hr | hr
      · exact hrows1 r hr
      · rw [List.mem_singleton] at hr
        subst hr
        exact slidesOk_of_create _ tipo req.carousel_images rfl rfl c3
    by_cases c6 : f.reread = true
    · rw [if_pos c6]; exact hnew
    · rw [if_neg c6]; exact hnew

/-- DELETE keeps the slide rule: it removes rows and changes none. -/
theorem delete_keeps_slidesOk (f : Faults) (id : Nat) (w : World)
    (h : ∀ r ∈ w.rows, slidesOk r) :
    ∀ r ∈ (router_delete f id w).world.rows, slidesOk r := by
  have hfil : ∀ r ∈ w.rows.filter (fun r => r.id != id), slidesOk r :=
    fun r hr => h r (List.mem_filter.mp hr).1
  by_cases h0 : f.lookup = true
  · simpa [router_delete, h0] using h
  cases hsel : selectById id w.rows with
  | none => simpa [router_delete, h0, hsel] using h
  | some record =>
    by_cases h1 : f.write = true
    · simpa [router_delete, h0, hsel, h1] using h
    · simpa [router_delete, h0, hsel, h1] using hfil

/-! ## GET /activo -/

theorem activeNow_iff_eligible (toInstant : JsVal → Nat) (now : Nat) (r : Row) :
    activeNow toInstant now r = true ↔ eligible toInstant now r := by
  unfold activeNow eligible
  cases hs : cellInstant toInstant r.starts_at <;> cases he : cellInstant toInstant r.ends_at <;>
    simp [and_assoc]

theorem mostRecent_eq_none (l : List Row) : mostRecent l = none ↔ l = [] := by
  cases l with
  | nil => simp [mostRecent]
  | cons a t =>
    simp only [mostRecent]
    cases mostRecent t with
    | none => simp
    | some m => by_cases h : a.updated_at ≥ m.updated_at <;> simp [h]

theorem mostRecent_some {l : List Row} {m : Row} (h : mostRecent l = some m) :
    m ∈ l ∧ ∀ q ∈ l, q.updated_at ≤ m.updated_at := by
  induction l generalizing m with
  | nil => simp [mostRecent] at h
  | cons a t ih =>
    simp only [mostRecent] at h
    cases ht : mostRecent t with
    | none =>
      have hnil : t = [] := (mostRecent_eq_none t).mp ht
      simp only [ht] at h
      injection h with h
      subst h
      subst hnil
      simp
    | some b =>
      obtain ⟨hb, hmax⟩ := ih ht
      simp only [ht] at h
      by_cases hc : a.updated_at ≥ b.updated_at
      · rw [if_pos hc] at h
        injection h with h
        subst h
        refine ⟨List.mem_cons_self _ _, ?_⟩
        intro q hq
        rcases List.mem_cons.mp hq with rfl | hq
        · exact le_refl _
        · exact le_trans (hmax q hq) hc
      · rw [if_neg hc] at h
        injection h with h
        subst h
        refine ⟨List.mem_cons_of_mem _ hb, ?_⟩
        intro q hq
        rcases List.mem_cons.mp hq with rfl | hq
        · omega
        · exact hmax q hq

theorem mostRecent_of_all_eq {l : List Row} {r : Row} (hne : l ≠ [])
    (h : ∀ q ∈ l, q = r) : mostRecent l = some r := by
  cases hm : mostRecent l with
  | none => exact absurd ((mostRecent_eq_none l).mp hm) hne
  | some m => rw [h m (mostRecent_some hm).1]

/-- What `GET /activo` answers once a row has been selected. -/
theorem router_get_activo_of_selected (toInstant : JsVal → Nat) (f : Faults) (now : Nat)
    (w : World) (sel : Row) (hf : f.lookup = false)
    (hsel : mostRecent (w.rows.filter (activeNow toInstant now)) = some sel) :
    (sel.imagen_url.truthy = false →
      router_get_activo toInstant f now w
        = some ⟨200, some (rowToApi (selectActivo sel)), [.select]⟩) ∧
    (∀ p, sel.imagen_url = .str p → p ≠ "" →
      (existsSync (UploadDir.anuncios, basename p) w.disk = true →
        router_get_activo toInstant f now w
          = some ⟨200, some (rowToApi (selectActivo sel)), [.select]⟩) ∧
      (existsSync (UploadDir.anuncios, basename p) w.disk = false →
        router_get_activo toInstant f now w = some ⟨204, none, [.select]⟩)) := by
  refine ⟨?_, ?_⟩
  · intro himg
    simp [router_get_activo, hf, hsel, himg]
  · intro p hp hne
    have ht : (JsVal.str p).truthy = true := by simp [JsVal.truthy, hne]
    refine ⟨?_, ?_⟩
    · intro hex
      simp [router_get_activo, hf, hsel, ht, hp, hex]
    · intro hex
      simp [router_get_activo, hf, hsel, ht, hp, hex]

theorem filter_activeNow_eq_nil (toInstant : JsVal → Nat) (now : Nat) (rows : List Row)
    (h : ∀ r ∈ rows, ¬ eligible toInstant now r) :
    rows.filter (activeNow toInstant now) = [] := by
  rw [List.filter_eq_nil_iff]
  intro r hr hact
  exact h r hr ((activeNow_iff_eligible toInstant now r).mp hact)

theorem existsSync_iff (f : DiskFile) (disk : Disk) :
    existsSync f disk = true ↔ f ∈ disk ∨ f.2 = "" ∨ f.2 = "." ∨ f.2 = ".." := by
  simp only [existsSync, Bool.or_eq_true, beq_iff_eq, decide_eq_true_eq]
  tauto

theorem existsSync_eq_false_iff (f : DiskFile) (disk : Disk) :
    existsSync f disk = false ↔ f ∉ disk ∧ f.2 ≠ "" ∧ f.2 ≠ "." ∧ f.2 ≠ ".." := by
  rw [← Bool.not_eq_true, existsSync_iff]
  tauto

theorem or_or_null (v : JsVal) :
    (v.or .undefined).or .null = if v.truthy = true then v else .null := by
  unfold JsVal.or
  by_cases h : v.truthy = true
  · simp [h]
  · rw [if_neg h, if_neg h]
    rfl

/-- The object `GET /activo` sends for a row with `activo = 1`, key by key. -/
theorem rowToApi_selectActivo (r : Row) (h : r.activo = 1) :
    rowToApi (selectActivo r) =
      { id := r.id,
        tipo := r.tipo,
        titulo := if r.titulo.truthy = true then r.titulo else .undefined,
        mensaje := if r.mensaje.truthy = true then r.mensaje else .undefined,
        imagen_url := if r.imagen_url.truthy = true then r.imagen_url else .null,
        link_url := if r.link_url.truthy = true then r.link_url else .undefined,
        activo := true,
        dismissible := r.dismissible != 0,
        include_pages := if r.include_pages.truthy = true then r.include_pages else .null,
        exclude_pages := if r.exclude_pages.truthy = true then r.exclude_pages else .null,
        starts_at := if r.starts_at.truthy = true then r.starts_at else .null,
        ends_at := if r.ends_at.truthy = true then r.ends_at else .null,
        created_at := none,
        updated_at := r.updated_at,
        carousel_images := none } := by
  simp only [rowToApi, selectActivo, or_or_null, h]
  simp [JsVal.or]

/-- C14.  When the query succeeds, `GET /activo` answers 204 without a body if no row is
eligible; otherwise it selects an eligible row whose `updated_at` is greatest among the
eligible rows.  The object it sends for that row carries the columns of the row (a falsy
`titulo`, `mensaje` or `link_url` left out, a falsy `imagen_url`, page list or bound sent
as null), `activo = true`, and neither `created_at` nor `carousel_images`.  It answers
200 with that object when the row's `imagen_url` is falsy, or when the base name of the
path is a file of `uploads/anuncios` on disk (or the name is empty, `.` or `..`, where
the joined path is a directory); it answers 204 without a body when it is not.  In
particular it answers 204 when the only active row has not started, has ended, or names
an image file that is not on disk. -/
theorem get_activo_spec (toInstant : JsVal → Nat) (f : Faults) (now : Nat) (w : World)
    (hf : f.lookup = false) :
    ((∀ r ∈ w.rows, ¬ eligible toInstant now r) →
      router_get_activo toInstant f now w = some ⟨204, none, [.select]⟩) ∧
    ((∃ r ∈ w.rows, eligible toInstant now r) →
      ∃ sel ∈ w.rows, eligible toInstant now sel ∧
        (∀ q ∈ w.rows, eligible toInstant now q → q.updated_at ≤ sel.updated_at) ∧
        rowToApi (selectActivo sel) =
          { id := sel.id,
            tipo := sel.tipo,
            titulo := if sel.titulo.truthy = true then sel.titulo else .undefined,
            mensaje := if sel.mensaje.truthy = true then sel.mensaje else .undefined,
            imagen_url := if sel.imagen_url.truthy = true then sel.imagen_url else .null,
            link_url := if sel.link_url.truthy = true then sel.link_url else .undefined,
            activo := true,
            dismissible := sel.dismissible != 0,
            include_pages :=
              if sel.include_pages.truthy = true then sel.include_pages else .null,
            exclude_pages :=
              if sel.exclude_pages.truthy = true then sel.exclude_pages else .null,
            starts_at := if sel.starts_at.truthy = true then sel.starts_at else .null,
            ends_at := if sel.ends_at.truthy = true then sel.ends_at else .null,
            created_at := none,
            updated_at := sel.updated_at,
            carousel_images := none } ∧
        (sel.imagen_url.truthy = false →
          router_get_activo toInstant f now w
            = some ⟨200, some (rowToApi (selectActivo sel)), [.select]⟩) ∧
        (∀ p, sel.imagen_url = .str p → p ≠ "" →
          (((UploadDir.anuncios, basename p) ∈ w.disk ∨
              basename p = "" ∨ basename p = "." ∨ basename p = "..") →
            router_get_activo toInstant f now w
              = some ⟨200, some (rowToApi (selectActivo sel)), [.select]⟩) ∧
          (((UploadDir.anuncios, basename p) ∉ w.disk ∧
              basename p ≠ "" ∧ basename p ≠ "." ∧ basename p ≠ "..") →
            router_get_activo toInstant f now w = some ⟨204, none, [.select]⟩))) ∧
    (∀ r ∈ w.rows, (∀ q ∈ w.rows, q.activo = 1 → q = r) →
      ((∃ s, cellInstant toInstant r.starts_at = some s ∧ now < s) ∨
       (∃ e, cellInstant toInstant r.ends_at = some e ∧ e < now) ∨
       (∃ p, r.imagen_url = .str p ∧ p ≠ "" ∧
          (UploadDir.anuncios, basename p) ∉ w.disk ∧
          basename p ≠ "" ∧ basename p ≠ "." ∧ basename p ≠ "..")) →
      router_get_activo toInstant f now w = some ⟨204, none, [.select]⟩) := by
  have hnone : (∀ r ∈ w.rows, ¬ eligible toInstant now r) →
      router_get_activo toInstant f now w = some ⟨204, none, [.select]⟩ := by
    intro h
    have hm : mostRecent (w.rows.filter (activeNow toInstant now)) = none := by
      rw [filter_activeNow_eq_nil toInstant now w.rows h]
      rfl
    simp [router_get_activo, hf, hm]
  refine ⟨hnone, ?_, ?_⟩
  · rintro ⟨r, hr, hel⟩
    cases hm : mostRecent (w.rows.filter (activeNow toInstant now)) with
    | none =>
      have hnil := (mostRecent_eq_none _).mp hm
      rw [List.filter_eq_nil_iff] at hnil
      exact absurd ((activeNow_iff_eligible toInstant now r).mpr hel) (hnil r hr)
    | some sel =>
      obtain ⟨hmem, hmax⟩ := mostRecent_some hm
      rw [List.mem_filter] at hmem
      have hsel := (activeNow_iff_eligible toInstant now sel).mp hmem.2
      have hof := router_get_activo_of_selected toInstant f now w sel hf hm
      refine ⟨sel, hmem.1, hsel, ?_, rowToApi_selectActivo sel hsel.1, hof.1, ?_⟩
      · intro q hq hqe
        exact hmax q
          (List.mem_filter.mpr ⟨hq, (activeNow_iff_eligible toInstant now q).mpr hqe⟩)
      · intro p hp hpne
        refine ⟨fun hex => ?_, fun hex => ?_⟩
        · exact ((hof.2 p hp hpne).1 ((existsSync_iff _ _).mpr hex))
        · exact ((hof.2 p hp hpne).2 ((existsSync_eq_false_iff _ _).mpr hex))
  · intro r hr honly hcase
    by_cases hel : eligible toInstant now r
    · have hall : ∀ q ∈ w.rows.filter (activeNow toInstant now), q = r := by
        intro q hq
        rw [List.mem_filter] at hq
        exact honly q hq.1 ((activeNow_iff_eligible toInstant now q).mp hq.2).1
      have hne : w.rows.filter (activeNow toInstant now) ≠ [] := by
        intro hnil
        rw [List.filter_eq_nil_iff] at hnil
        exact hnil r hr ((activeNow_iff_eligible toInstant now r).mpr hel)
      have hm := mostRecent_of_all_eq hne hall
      rcases hcase with ⟨s, hs, hlt⟩ | ⟨e, he, hlt⟩ | ⟨p, hp, hpne, hex⟩
      · have := hel.2.1 s hs
        omega
      · have := hel.2.2 e he
        omega
      · exact ((router_get_activo_of_selected toInstant f now w r hf hm).2 p hp hpne).2
          ((existsSync_eq_false_iff _ _).mpr hex)
    · apply hnone
      intro q hq hqe
      have hqr : q = r := honly q hq hqe.1
      rw [hqr] at hqe
      exact hel hqe

/-- On `servingWorld`: at instant 40 records 1, 2 and 3 are eligible and record 3, the
most recently updated of them, is served; at instant 100 record 3 has ended, record 2 is
selected before record 1 and its image `gone.png` is not on disk, so the answer is 204
although the image of record 1 is there; with `gone.png` on disk record 2 is served, and
with record 2 switched off record 1 is.  The banner of `windowWorld` is not served
before its window or after it. -/
theorem get_activo_spec_witness :
    router_get_activo secondsOf Faults.none 40 servingWorld
      = some ⟨200, some
          { id := 3, tipo := .str "banner", titulo := .undefined, mensaje := .undefined,
            imagen_url := .null, link_url := .undefined, activo := true, dismissible := true,
            include_pages := .null, exclude_pages := .null, starts_at := .null,
            ends_at := .num 50, created_at := none, updated_at := 9,
            carousel_images := none }, [.select]⟩ ∧
    router_get_activo secondsOf Faults.none 100 servingWorld = some ⟨204, none, [.select]⟩ ∧
    router_get_activo secondsOf Faults.none 100
        { servingWorld with disk := (UploadDir.anuncios, "gone.png") :: servingWorld.disk }
      = some ⟨200, some
          { id := 2, tipo := .str "banner", titulo := .str "Sale", mensaje := .undefined,
            imagen_url := .str "/uploads/anuncios/gone.png", link_url := .undefined,
            activo := true, dismissible := false, include_pages := .null,
            exclude_pages := .null, starts_at := .null, ends_at := .null,
            created_at := none, updated_at := 8, carousel_images := none }, [.select]⟩ ∧
    (router_get_activo secondsOf Faults.none 100
        (router_patch Faults.none 4 2 { Body.empty with activo := .bool false }
          servingWorld).world).map (fun r => (r.status, r.body.map (fun b => (b.id, b.imagen_url))))
      = some (200, some (1, .str "/uploads/anuncios/a.png")) ∧
    router_get_activo secondsOf Faults.none 99 windowWorld = some ⟨204, none, [.select]⟩ ∧
    router_get_activo secondsOf Faults.none 201 windowWorld = some ⟨204, none, [.select]⟩ ∧
    router_get_activo secondsOf Faults.none 100
        { servingWorld with rows := servingWorld.rows.drop 1 }
      = some ⟨204, none, [.select]⟩ :=
  ⟨by decide, by decide, by decide, by decide,
   (get_activo_spec secondsOf Faults.none 99 windowWorld rfl).2.2 _ (List.mem_singleton.mpr rfl)
     (by decide) (Or.inl ⟨100, rfl, by decide⟩),
   (get_activo_spec secondsOf Faults.none 201 windowWorld rfl).2.2 _ (List.mem_singleton.mpr rfl)
     (by decide) (Or.inr (Or.inl ⟨200, rfl, by decide⟩)),
   by decide⟩

/-- For a kind other than `carousel`, `rowToApi` sets no `carousel_images` even when the
row stores slides. -/
theorem rowToApi_non_carousel_has_no_slides :
    (rowToApi (selectAll
      { sampleRow 1 "banner" 1 .null with
          carousel_images := some ["/uploads/carousels/slide-1-b.png"] })).carousel_images
      = none := by
  decide

/-- C15 (failing input).  The active carousel of `afterCarousel` stores two slides and
its primary image is on disk; `GET /activo` answers 200 with a body that has no
`carousel_images`, because the query does not select that column.  `rowToApi` on the
full row does set them. -/
theorem get_activo_omits_carousel_images :
    (selectById 1 afterCarousel.rows).map (fun r => (r.tipo, r.activo, r.carousel_images))
      = some (.str "carousel", 1,
          some ["/uploads/carousels/slide-1-b.png", "/uploads/carousels/slide-1-c.png"]) ∧
    (router_get_activo secondsOf Faults.none 50 afterCarousel).map
        (fun r => (r.status, r.body.map (fun b => (b.id, b.carousel_images))))
      = some (200, some (1, none)) ∧
    afterCarousel.rows.map (fun r => (rowToApi (selectAll r)).carousel_images)
      = [some ["/uploads/carousels/slide-1-b.png", "/uploads/carousels/slide-1-c.png"]] := by
  decide

/-! ## The active window -/

/-- C16 (counterexample).  The only row of `windowWorld` is active and its end bound is
instant 200; at instant 200 `GET /activo` serves it with 200. -/
theorem window_end_is_served :
    windowWorld.rows.map (fun r => (r.activo, cellInstant secondsOf r.ends_at))
      = [(1, some 200)] ∧
    (router_get_activo secondsOf Faults.none 200 windowWorld).map
        (fun r => (r.status, r.body.map (fun b => b.id)))
      = some (200, some 1) := by
  decide

/-- C16 (amended).  The window is closed at both ends.  When `r` is the only active row
and has no primary image, or one whose file exists, `GET /activo` serves it with 200 if
its start bound is absent or not after now and its end bound is absent or not before
now (a bound equal to now included), and answers 204 otherwise. -/
theorem active_window_closed (toInstant : JsVal → Nat) (f : Faults) (now : Nat) (w : World)
    (r : Row) (hf : f.lookup = false) (hr : r ∈ w.rows)
    (honly : ∀ q ∈ w.rows, q.activo = 1 → q = r) (hact : r.activo = 1)
    (himg : r.imagen_url.truthy = false ∨
      ∃ p, r.imagen_url = .str p ∧ p ≠ "" ∧
        existsSync (UploadDir.anuncios, basename p) w.disk = true) :
    (((∀ s, cellInstant toInstant r.starts_at = some s → s ≤ now) ∧
      (∀ e, cellInstant toInstant r.ends_at = some e → now ≤ e)) →
      router_get_activo toInstant f now w
        = some ⟨200, some (rowToApi (selectActivo r)), [.select]⟩) ∧
    (¬ ((∀ s, cellInstant toInstant r.starts_at = some s → s ≤ now) ∧
      (∀ e, cellInstant toInstant r.ends_at = some e → now ≤ e)) →
      router_get_activo toInstant f now w = some ⟨204, none, [.select]⟩) := by
  refine ⟨?_, ?_⟩
  · intro hwin
    have hel : eligible toInstant now r := ⟨hact, hwin.1, hwin.2⟩
    have hall : ∀ q ∈ w.rows.filter (activeNow toInstant now), q = r := by
      intro q hq
      rw [List.mem_filter] at hq
      exact honly q hq.1 ((activeNow_iff_eligible toInstant now q).mp hq.2).1
    have hne : w.rows.filter (activeNow toInstant now) ≠ [] := by
      intro hnil
      rw [List.filter_eq_nil_iff] at hnil
      exact hnil r hr ((activeNow_iff_eligible toInstant now r).mpr hel)
    have hm := mostRecent_of_all_eq hne hall
    rcases himg with himg | ⟨p, hp, hpne, hex⟩
    · exact (router_get_activo_of_selected toInstant f now w r hf hm).1 himg
    · exact ((router_get_activo_of_selected toInstant f now w r hf hm).2 p hp hpne).1 hex
  · intro hwin
    have hm : mostRecent (w.rows.filter (activeNow toInstant now)) = none := by
      rw [filter_activeNow_eq_nil toInstant now w.rows]
      · rfl
      · intro q hq hqe
        have hqr : q = r := honly q hq hqe.1
        rw [hqr] at hqe
        exact hwin ⟨hqe.2.1, hqe.2.2⟩
    simp [router_get_activo, hf, hm]

/-- The banner of `windowWorld` is served at its start bound and at its end bound. -/
theorem active_window_closed_witness :
    (router_get_activo secondsOf Faults.none 100 windowWorld).map (fun r => r.status)
      = some 200 ∧
    (router_get_activo secondsOf Faults.none 200 windowWorld).map (fun r => r.status)
      = some 200 ∧
    (router_get_activo secondsOf Faults.none 201 windowWorld).map (fun r => r.status)
      = some 204 :=
  have h := fun now => active_window_closed secondsOf Faults.none now windowWorld
    { sampleRow 1 "banner" 1 .null with starts_at := .num 100, ends_at := .num 200 }
    rfl (List.mem_singleton.mpr rfl) (by decide) rfl (Or.inl rfl)
  ⟨by rw [(h 100).1 (by decide)]; rfl,
   by rw [(h 200).1 (by decide)]; rfl,
   by rw [(h 201).2 (by decide)]; rfl⟩

/-! ## toBool -/

/-- C17.  `toBool` returns a boolean unchanged, false for the number 0, true for the
number 1, true for the string `1` and for the four letters of `true` in any mix of
upper and lower case, and `undefined` for `null` and `undefined`. -/
theorem toBool_accepted_values :
    (∀ b : Bool, toBool (.bool b) = some b) ∧
    toBool (.num 0) = some false ∧ toBool (.num 1) = some true ∧
    toBool (.str "1") = some true ∧
    (∀ c1 c2 c3 c4 : Char, (c1 = 't' ∨ c1 = 'T') → (c2 = 'r' ∨ c2 = 'R') →
      (c3 = 'u' ∨ c3 = 'U') → (c4 = 'e' ∨ c4 = 'E') →
      toBool (.str ⟨[c1, c2, c3, c4]⟩) = some true) ∧
    toBool .null = none ∧ toBool .undefined = none := by
  refine ⟨fun b => rfl, by decide, by decide, by decide, ?_, rfl, rfl⟩
  rintro c1 c2 c3 c4 (rfl | rfl) (rfl | rfl) (rfl | rfl) (rfl | rfl) <;> decide

/-- The spellings `true`, `TRUE` and `True` are accepted. -/
theorem toBool_accepted_values_witness :
    toBool (.str "true") = some true ∧ toBool (.str "TRUE") = some true ∧
    toBool (.str "True") = some true :=
  ⟨toBool_accepted_values.2.2.2.2.1 't' 'r' 'u' 'e' (Or.inl rfl) (Or.inl rfl) (Or.inl rfl)
     (Or.inl rfl),
   toBool_accepted_values.2.2.2.2.1 'T' 'R' 'U' 'E' (Or.inr rfl) (Or.inr rfl) (Or.inr rfl)
     (Or.inr rfl),
   toBool_accepted_values.2.2.2.2.1 'T' 'r' 'u' 'e' (Or.inr rfl) (Or.inl rfl) (Or.inl rfl)
     (Or.inl rfl)⟩

/-- C18 (counterexample).  `toBool` is not unset on `yes`, `on`, the empty string or the
number 2: the strings give false, the number gives true.  A create request with
`activo = 'yes'` and `dismissible = 'on'` answers 201 and stores both flags as 0. -/
theorem toBool_other_values_not_unset :
    toBool (.str "yes") = some false ∧ toBool (.str "on") = some false ∧
    toBool (.str "") = some false ∧ toBool (.num 2) = some true ∧
    (router_post Faults.none 7 yesReq (uploadFields yesReq emptyWorld)).status = 201 ∧
    (router_post Faults.none 7 yesReq (uploadFields yesReq emptyWorld)).world.rows.map
        (fun r => (r.activo, r.dismissible)) = [(0, 0)] := by
  decide

/-- The row POST inserts when validation passes and neither `deactivateOthers` nor the
INSERT fails: its flags are `toBool` of the body values, 1 when that is unset. -/
theorem router_post_flags (f : Faults) (now : Nat) (req : Req) (w : World)
    (hv : validCreate req = true) (hd : f.deactivate = false) (hw : f.write = false) :
    ∃ row : Row,
      (router_post f now req w).world.rows
        = (if (toBool req.body.activo).getD true = true
            then deactivateOthers now none w.rows else w.rows) ++ [row] ∧
      row.id = w.nextId ∧
      row.activo = (if (toBool req.body.activo).getD true = true then 1 else 0) ∧
      row.dismissible = (if (toBool req.body.dismissible).getD true = true then 1 else 0) := by
  obtain ⟨tipo, hl, hne, hmem, h2, h3⟩ := validCreate_cases req hv
  have c1 : ¬ (tipo = "" ∨ tipo ∉ TIPOS) := by simp [hne, hmem]
  have c4 : ¬ ((toBool req.body.activo).getD true = true ∧ f.deactivate = true) := by
    simp [hd]
  have c5 : ¬ f.write = true := by simp [hw]
  simp only [router_post, hl]
  rw [if_neg c1, if_neg h2, if_neg h3, if_neg c4, if_neg c5]
  by_cases c6 : f.reread = true
  · rw [if_pos c6]
    exact ⟨_, rfl, rfl, rfl, rfl⟩
  · rw [if_neg c6]
    exact ⟨_, rfl, rfl, rfl, rfl⟩

/-- C18 (amended).  `toBool` is unset exactly on `null`, `undefined` and values that are
not a boolean, a number or a string; a string other than `1` that does not lower to
`true` gives false and a number other than 0 gives true.  A create request that passes
validation, with no failing statement before the row is written, stores each flag as
`toBool` of the body value, and as 1 only when that is unset. -/
theorem toBool_unset_only_without_value :
    (∀ v : JsVal, toBool v = none ↔ (v = .null ∨ v = .undefined ∨ v = .other)) ∧
    (∀ s : String, toLowerCase s ≠ "true" → s ≠ "1" → toBool (.str s) = some false) ∧
    (∀ n : Int, n ≠ 0 → toBool (.num n) = some true) ∧
    (∀ (f : Faults) (now : Nat) (req : Req) (w : World), validCreate req = true →
      f.deactivate = false → f.write = false →
      ∃ row ∈ (router_post f now req w).world.rows, row.id = w.nextId ∧
        row.activo = (match toBool req.body.activo with
          | none => 1
          | some b => if b then 1 else 0) ∧
        row.dismissible = (match toBool req.body.dismissible with
          | none => 1
          | some b => if b then 1 else 0)) := by
  refine ⟨?_, ?_, ?_, ?_⟩
  · intro v
    cases v <;> simp [toBool]
  · intro s h1 h2
    simp [toBool, h1, h2]
  · intro n hn
    simp [toBool, hn]
  · intro f now req w hv hd hw
    obtain ⟨row, hrows, hid, hact, hdis⟩ := router_post_flags f now req w hv hd hw
    refine ⟨row, by rw [hrows]; simp, hid, ?_, ?_⟩
    · rw [hact]
      cases toBool req.body.activo with
      | none => rfl
      | some b => cases b <;> rfl
    · rw [hdis]
      cases toBool req.body.dismissible with
      | none => rfl
      | some b => cases b <;> rfl

/-- A banner created with `activo = 'yes'` and `dismissible = 'on'` stores 0 and 0. -/
theorem toBool_unset_only_without_value_witness :
    validCreate yesReq = true ∧
    ∃ row ∈ (router_post Faults.none 7 yesReq (uploadFields yesReq emptyWorld)).world.rows,
      row.id = 1 ∧ row.activo = 0 ∧ row.dismissible = 0 :=
  ⟨by decide,
   toBool_unset_only_without_value.2.2.2 Faults.none 7 yesReq (uploadFields yesReq emptyWorld)
     (by decide) rfl rfl⟩

/-! ## Kinds and required fields -/

/-- C19 (failing input).  `imagepopup` is not in `TIPOS`: the create request of the smoke
test (kind `imagepopup` with a primary image) answers 400 and inserts nothing, and so do
a PATCH and a PUT that set the kind to `imagepopup`. -/
theorem imagepopup_is_rejected :
    TIPOS_has (.str "imagepopup") = false ∧
    (router_post Faults.none 7 imagepopupReq (uploadFields imagepopupReq emptyWorld)).status
      = 400 ∧
    (router_post Faults.none 7 imagepopupReq (uploadFields imagepopupReq emptyWorld)).world.rows
      = [] ∧
    (router_patch Faults.none 9 1 { Body.empty with tipo := .str "imagepopup" }
      twoBanners).status = 400 ∧
    (router_put Faults.none 9 1 ⟨{ Body.empty with tipo := .str "imagepopup" }, [], []⟩
      twoBanners).status = 400 := by
  decide

/-- C20 (failing input).  A create request of kind `popup` with a primary image and no
`mensaje` answers 201 and inserts a popup whose `mensaje` is NULL; with an empty
`mensaje` it answers 201 as well.  POST never looks at `mensaje`. -/
theorem popup_without_message_is_created :
    (router_post Faults.none 7 popupReq (uploadFields popupReq emptyWorld)).status = 201 ∧
    (router_post Faults.none 7 popupReq (uploadFields popupReq emptyWorld)).world.rows.map
        (fun r => (r.id, r.tipo, r.mensaje)) = [(1, .str "popup", .null)] ∧
    (router_post Faults.none 7
        ⟨{ popupReq.body with mensaje := .str "" }, popupReq.image, []⟩
        (uploadFields popupReq emptyWorld)).status = 201 ∧
    (router_post Faults.none 7
        ⟨{ popupReq.body with mensaje := .str "" }, popupReq.image, []⟩
        (uploadFields popupReq emptyWorld)).world.rows.map
        (fun r => (r.id, r.tipo, r.mensaje)) = [(1, .str "popup", .str "")] := by
  decide

/-- C21 (failing input).  A create request of kind `banner` that uploads no file answers
201 and inserts a banner whose `imagen_url` is NULL: POST asks for a primary image only
when the kind is `carousel`. -/
theorem create_without_image_is_accepted :
    primaryFile noImageReq = none ∧
    (router_post Faults.none 7 noImageReq (uploadFields noImageReq emptyWorld)).status = 201 ∧
    (router_post Faults.none 7 noImageReq (uploadFields noImageReq emptyWorld)).world.rows.map
        (fun r => (r.id, r.tipo, r.imagen_url)) = [(1, .str "banner", .null)] := by
  decide

/-! ## deactivateOthers -/

/-- C22 (counterexample).  On `twoBanners` at instant 9, excluding id 2 turns record 1
inactive and stamps its `updated_at` with 9, the column being declared `ON UPDATE
CURRENT_TIMESTAMP`: a field other than `activo` has changed.  Record 2, the target, and
every other column of record 1 are as before. -/
theorem deactivateOthers_stamps_updated_at :
    twoBanners.rows.map (fun r => (r.id, r.activo, r.updated_at)) = [(1, 1, 0), (2, 0, 0)] ∧
    (deactivateOthers 9 (some 2) twoBanners.rows).map (fun r => (r.id, r.activo, r.updated_at))
      = [(1, 0, 9), (2, 0, 0)] ∧
    deactivateOthers 9 (some 2) twoBanners.rows
      = [{ sampleRow 1 "banner" 0 .null with updated_at := 9 }, sampleRow 2 "banner" 0 .null] ∧
    ¬ List.Forall₂ (fun o n => (o.id ≠ 2 → n = { o with activo := 0 }) ∧ (o.id = 2 → n = o))
      twoBanners.rows (deactivateOthers 9 (some 2) twoBanners.rows) := by
  refine ⟨by decide, by decide, by decide, ?_⟩
  intro h
  have h1 : deactivateOthers 9 (some 2) twoBanners.rows
      = [{ sampleRow 1 "banner" 0 .null with updated_at := 9 }, sampleRow 2 "banner" 0 .null] := by
    decide
  rw [h1] at h
  simp only [twoBanners, List.forall₂_cons] at h
  have h2 := h.1.1 (by decide)
  revert h2
  decide

/-- C22 (amended).  `deactivateOthers(targetId)` returns the rows in order.  A row with
another id whose `activo` was 0 is untouched; a row with another id whose `activo` was
not 0 is the old row with `activo = 0` and `updated_at = now`, every other column as
before; the row with the target id is untouched.  Without a target the same holds of
every row.  The promise resolves with that table whenever the query reports no error,
also when no row was affected. -/
theorem deactivateOthers_frame (now : Nat) (rows : List Row) (x : Nat) :
    List.Forall₂ (fun o n =>
        (o.id ≠ x →
          n = if o.activo = 0 then o else { o with activo := 0, updated_at := now }) ∧
        (o.id = x → n = o))
      rows (deactivateOthers now (some x) rows) ∧
    List.Forall₂ (fun o n =>
        n = if o.activo = 0 then o else { o with activo := 0, updated_at := now })
      rows (deactivateOthers now none rows) ∧
    (∀ r ∈ deactivateOthers now (some x) rows, r.id ≠ x → r.activo = 0) ∧
    (∀ r ∈ deactivateOthers now none rows, r.activo = 0) ∧
    (∀ excl, deactivateOthersPromise now false excl rows
        = some (deactivateOthers now excl rows)) ∧
    (∀ excl, deactivateOthersPromise now false excl [] = some []) := by
  refine ⟨?_, ?_, ?_, ?_, fun _ => rfl, ?_⟩
  · simp only [deactivateOthers]
    rw [List.forall₂_map_right_iff, List.forall₂_same]
    intro o _
    by_cases h : o.id = x
    · simp [h]
    · simp [h, setInactive_eq]
  · simp only [deactivateOthers]
    rw [List.forall₂_map_right_iff, List.forall₂_same]
    intro o _
    rfl
  · intro r hr hne
    simp only [deactivateOthers, List.mem_map] at hr
    obtain ⟨o, -, rfl⟩ := hr
    by_cases h : o.id = x
    · simp [h] at hne
    · simp [h]
  · intro r hr
    simp only [deactivateOthers, List.mem_map] at hr
    obtain ⟨o, -, rfl⟩ := hr
    simp
  · intro excl
    cases excl <;> rfl

/-- On `twoBanners` at instant 9, excluding id 2 deactivates and stamps record 1 and
leaves record 2 as it is; excluding id 1 changes nothing, and the promise resolves. -/
theorem deactivateOthers_frame_witness :
    deactivateOthers 9 (some 1) twoBanners.rows = twoBanners.rows ∧
    deactivateOthersPromise 9 false (some 1) twoBanners.rows = some twoBanners.rows ∧
    List.Forall₂ (fun o n =>
        n = if o.activo = 0 then o else { o with activo := 0, updated_at := 9 })
      twoBanners.rows (deactivateOthers 9 none twoBanners.rows) ∧
    (∀ r ∈ deactivateOthers 9 (some 2) twoBanners.rows, r.id ≠ 2 → r.activo = 0) :=
  ⟨by decide, by decide, (deactivateOthers_frame 9 twoBanners.rows 2).2.1,
   (deactivateOthers_frame 9 twoBanners.rows 2).2.2.1⟩

/-! ## deleteImageFile -/

theorem basename_no_slash (p : String) : '/' ∉ (basename p).data := by
  intro h
  have hmem : '/' ∈ (p.data.reverse.dropWhile (fun c => c == '/')).takeWhile
      (fun c => c != '/') := by
    simpa [basename, basenameChars] using h
  have hall := List.all_takeWhile (p := fun c : Char => c != '/')
    (l := p.data.reverse.dropWhile (fun c => c == '/'))
  rw [List.all_eq_true] at hall
  have := hall '/' hmem
  simp at this

theorem removed_by_unlinkIfExists {f g : DiskFile} {disk : Disk} (hg : g ∈ disk)
    (hn : g ∉ unlinkIfExists f disk) : g = f := by
  by_contra hne
  exact hn (mem_unlinkIfExists_of_ne hne hg)

theorem removed_by_deleteImageFile {v : JsVal} {c : Bool} {g : DiskFile} {disk : Disk}
    (hg : g ∈ disk) (hn : g ∉ deleteImageFile v c disk) :
    ∃ p, v = .str p ∧ p ≠ "" ∧ g = (categoryDir c, basename p) := by
  unfold deleteImageFile at hn
  split at hn
  · rename_i p
    split at hn
    · exact absurd hg hn
    · rename_i hne
      exact ⟨p, rfl, hne, removed_by_unlinkIfExists hg hn⟩
  · exact absurd hg hn

/-- C26.  For every argument, category and disk, `deleteImageFile` returns a disk (the
`catch` absorbs every throw) that holds no file the old disk lacks, and a file of the old
disk is missing from it only if the argument is a non-empty string and the file is the
one named by its last component, which contains no slash, in the directory of the
category.  On `null`, `undefined`, the empty string and a path whose file does not
exist the disk is returned as it is. -/
theorem deleteImageFile_safe (v : JsVal) (c : Bool) (disk : Disk) :
    (∀ g ∈ deleteImageFile v c disk, g ∈ disk) ∧
    (∀ g ∈ disk, g ∉ deleteImageFile v c disk →
      ∃ p, v = .str p ∧ p ≠ "" ∧ g = (categoryDir c, basename p) ∧ '/' ∉ (basename p).data) ∧
    deleteImageFile .null c disk = disk ∧ deleteImageFile .undefined c disk = disk ∧
    deleteImageFile (.str "") c disk = disk ∧
    (∀ p, (categoryDir c, basename p) ∉ disk → deleteImageFile (.str p) c disk = disk) := by
  refine ⟨fun g hg => mem_of_mem_deleteImageFile hg, ?_, rfl, rfl, rfl, ?_⟩
  · intro g hg hn
    obtain ⟨p, hv, hne, hgp⟩ := removed_by_deleteImageFile hg hn
    exact ⟨p, hv, hne, hgp, basename_no_slash p⟩
  · intro p hp
    unfold deleteImageFile
    by_cases hne : p = ""
    · simp [hne]
    · have hp' : ((if c = true then UploadDir.carousels else UploadDir.anuncios), basename p)
          ∉ disk := hp
      simp only [hne, if_false, unlinkIfExists, hp']

/-- A path with `../` components removes only the file named by its last component, in
the directory of the category; a path ending in `..` and a missing file remove nothing. -/
theorem deleteImageFile_safe_witness :
    deleteImageFile (.str "/uploads/anuncios/../../etc/passwd") false sampleDisk
      = [(UploadDir.anuncios, "a.png"), (UploadDir.carousels, "a.png")] ∧
    deleteImageFile (.str "/uploads/carousels/a.png") true sampleDisk
      = [(UploadDir.anuncios, "passwd"), (UploadDir.anuncios, "a.png")] ∧
    deleteImageFile (.str "../") false sampleDisk = sampleDisk ∧
    deleteImageFile (.str "/uploads/anuncios/missing.png") false sampleDisk = sampleDisk ∧
    deleteImageFile .null false sampleDisk = sampleDisk :=
  ⟨by decide, by decide, by decide,
   (deleteImageFile_safe (.str "/uploads/anuncios/missing.png") false sampleDisk).2.2.2.2.2
     "/uploads/anuncios/missing.png" (by decide),
   (deleteImageFile_safe .null false sampleDisk).2.2.1⟩

/-! ## DELETE: failure and order -/

theorem removed_by_deleteCarouselImages {imgs : Option (List String)} {g : DiskFile}
    {disk : Disk} (hg : g ∈ disk) (hn : g ∉ deleteCarouselImages imgs disk) :
    ∃ p ∈ imgs.getD [], g = (UploadDir.carousels, basename p) := by
  cases imgs with
  | none => exact absurd hg hn
  | some l =>
    induction l generalizing disk with
    | nil => exact absurd hg hn
    | cons a t ih =>
      have hstep : deleteCarouselImages (some (a :: t)) disk
          = deleteCarouselImages (some t) (deleteImageFile (.str a) true disk) := rfl
      rw [hstep] at hn
      by_cases hfirst : g ∈ deleteImageFile (.str a) true disk
      · obtain ⟨p, hp, hgp⟩ := ih hfirst hn
        exact ⟨p, List.mem_cons_of_mem _ hp, hgp⟩
      · obtain ⟨p, hv, -, hgp⟩ := removed_by_deleteImageFile hg hfirst
        injection hv with hv
        subst hv
        exact ⟨a, List.mem_cons_self _ _, hgp⟩

/-- What a DELETE that answers 200 did: it found a record, removed the rows with that
id, and removed from disk only files named like a path the record stored. -/
theorem router_delete_ok (f : Faults) (id : Nat) (w : World)
    (hs : (router_delete f id w).status = 200) :
    ∃ record, selectById id w.rows = some record ∧
      (router_delete f id w).world.rows = w.rows.filter (fun r => r.id != id) ∧
      ∀ g ∈ w.disk, g ∉ (router_delete f id w).world.disk →
        ∃ p ∈ referencedPaths record, g.2 = basename p := by
  by_cases h0 : f.lookup = true
  · simp [router_delete, h0] at hs
  cases hsel : selectById id w.rows with
  | none => simp [router_delete, h0, hsel] at hs
  | some record =>
    by_cases h1 : f.write = true
    · simp [router_delete, h0, hsel, h1] at hs
    · refine ⟨record, rfl, by simp [router_delete, h0, hsel, h1], ?_⟩
      intro g hg hn
      have hdisk : (router_delete f id w).world.disk
          = (if decide (record.tipo = .str "carousel") = true ∧ record.carousel_images ≠ none
              then deleteCarouselImages record.carousel_images
                (if record.imagen_url.truthy then
                  deleteImageFile record.imagen_url (decide (record.tipo = .str "carousel"))
                    w.disk
                else w.disk)
              else (if record.imagen_url.truthy then
                  deleteImageFile record.imagen_url (decide (record.tipo = .str "carousel"))
                    w.disk
                else w.disk)) := by
        simp [router_delete, h0, hsel, h1]
      rw [hdisk] at hn
      have hprimary : ∀ d : Disk,
          d = (if record.imagen_url.truthy then
                deleteImageFile record.imagen_url (decide (record.tipo = .str "carousel"))
                  w.disk
              else w.disk) →
          g ∉ d → ∃ p ∈ referencedPaths record, g.2 = basename p := by
        intro d hd hgd
        rw [hd] at hgd
        split at hgd
        · obtain ⟨p, hv, -, hgp⟩ := removed_by_deleteImageFile hg hgd
          refine ⟨p, ?_, by rw [hgp]⟩
          simp [referencedPaths, hv]
        · exact absurd hg hgd
      split at hn
      · by_cases hmid : g ∈ (if record.imagen_url.truthy then
            deleteImageFile record.imagen_url (decide (record.tipo = .str "carousel")) w.disk
          else w.disk)
        · obtain ⟨p, hp, hgp⟩ := removed_by_deleteCarouselImages hmid hn
          refine ⟨p, ?_, by rw [hgp]⟩
          simp only [referencedPaths, List.mem_append]
          exact Or.inr hp
        · exact hprimary _ rfl hmid
      · exact hprimary _ rfl hn

/-- C24 (counterexample).  In `sharedImageWorld` records 1 and 2 store the same primary
image path and the file is on disk.  `DELETE /1` answers 200 and removes the file, and
the remaining record 2 still stores its path. -/
theorem delete_removes_shared_file :
    sharedImageWorld.rows.map (fun r => (r.id, r.imagen_url))
      = [(1, .str "/uploads/anuncios/anuncio-1-a.png"),
         (2, .str "/uploads/anuncios/anuncio-1-a.png")] ∧
    sharedImageWorld.disk = [(UploadDir.anuncios, "anuncio-1-a.png")] ∧
    (router_delete Faults.none 1 sharedImageWorld).status = 200 ∧
    (router_delete Faults.none 1 sharedImageWorld).world.rows.map
        (fun r => (r.id, r.imagen_url)) = [(2, .str "/uploads/anuncios/anuncio-1-a.png")] ∧
    (router_delete Faults.none 1 sharedImageWorld).world.disk = [] := by
  decide

/-- C24 (amended).  DELETE answers 404 and leaves the world as it was when the lookup finds no row,
and answers 500 and leaves the world as it was when the DELETE statement fails.  The
disk changes only in a request that answers 200, where no row with the target id is
left; a file that request removed is named like a path the deleted record stored, and
the remaining rows are rows of the old table, so a file named by a remaining row is
still on disk unless the deleted record stored a path with the same file name. -/
theorem delete_failure_atomic (f : Faults) (id : Nat) (w : World) :
    (f.lookup = false → selectById id w.rows = none →
      (router_delete f id w).status = 404 ∧ (router_delete f id w).world = w) ∧
    (f.lookup = false → selectById id w.rows ≠ none → f.write = true →
      (router_delete f id w).status = 500 ∧ (router_delete f id w).world = w) ∧
    ((router_delete f id w).world ≠ w →
      (router_delete f id w).status = 200 ∧
      ∀ r ∈ (router_delete f id w).world.rows, r.id ≠ id) ∧
    ((router_delete f id w).status = 200 →
      ∃ record, selectById id w.rows = some record ∧
        (∀ r ∈ (router_delete f id w).world.rows, r ∈ w.rows ∧ r.id ≠ id) ∧
        (∀ g ∈ w.disk, g ∉ (router_delete f id w).world.disk →
          ∃ p ∈ referencedPaths record, g.2 = basename p) ∧
        (∀ r ∈ (router_delete f id w).world.rows, ∀ q ∈ referencedPaths r, ∀ d : UploadDir,
          (∀ p ∈ referencedPaths record, basename p ≠ basename q) →
          (d, basename q) ∈ w.disk → (d, basename q) ∈ (router_delete f id w).world.disk)) := by
  refine ⟨?_, ?_, ?_, ?_⟩
  · intro h0 hnone
    simp [router_delete, h0, hnone]
  · intro h0 hsome h1
    cases hsel : selectById id w.rows with
    | none => exact absurd hsel hsome
    | some record => simp [router_delete, h0, hsel, h1]
  · intro hne
    by_cases h0 : f.lookup = true
    · exact absurd (by simp [router_delete, h0]) hne
    cases hsel : selectById id w.rows with
    | none => exact absurd (by simp [router_delete, h0, hsel]) hne
    | some record =>
      by_cases h1 : f.write = true
      · exact absurd (by simp [router_delete, h0, hsel, h1]) hne
      · refine ⟨by simp [router_delete, h0, hsel, h1], ?_⟩
        intro r hr
        have hrows : (router_delete f id w).world.rows
            = w.rows.filter (fun r => r.id != id) := by
          simp [router_delete, h0, hsel, h1]
        rw [hrows, List.mem_filter] at hr
        simpa using hr.2
  · intro hs
    obtain ⟨record, hsel, hrows, hrem⟩ := router_delete_ok f id w hs
    refine ⟨record, hsel, ?_, hrem, ?_⟩
    · intro r hr
      rw [hrows, List.mem_filter] at hr
      exact ⟨hr.1, by simpa using hr.2⟩
    · intro r _ q _ d hdis hmem
      by_contra hgone
      obtain ⟨p, hp, hname⟩ := hrem _ hmem hgone
      exact hdis p hp hname.symm

/-- On `afterCarousel`: an unknown id and a failing DELETE statement leave the world as it
was; the successful DELETE leaves no row. -/
theorem delete_failure_atomic_witness :
    (router_delete Faults.none 7 afterCarousel).status = 404 ∧
    (router_delete Faults.none 7 afterCarousel).world = afterCarousel ∧
    (router_delete { Faults.none with write := true } 1 afterCarousel).status = 500 ∧
    (router_delete { Faults.none with write := true } 1 afterCarousel).world = afterCarousel ∧
    (router_delete Faults.none 1 afterCarousel).world.rows = [] :=
  have h404 := (delete_failure_atomic Faults.none 7 afterCarousel).1 rfl (by decide)
  have h500 := (delete_failure_atomic { Faults.none with write := true } 1 afterCarousel).2.1
    rfl (by decide) rfl
  ⟨h404.1, h404.2, h500.1, h500.2, by decide⟩

/-! ## PUT: the primary image -/

theorem anuncios_mem_deleteCarouselImages (imgs : Option (List String)) (fn : String)
    (disk : Disk) (h : (UploadDir.anuncios, fn) ∈ disk) :
    (UploadDir.anuncios, fn) ∈ deleteCarouselImages imgs disk := by
  by_contra hn
  obtain ⟨p, -, hgp⟩ := removed_by_deleteCarouselImages h hn
  simp at hgp

/-- Past the kind check, PUT leaves the disk `putDisk` describes, whatever fails later. -/
theorem router_put_disk (f : Faults) (now id : Nat) (req : Req) (w : World) (old : Row)
    (hf : f.lookup = false) (hsel : selectById id w.rows = some old)
    (hkind : ¬ ((req.body.tipo.or old.tipo).truthy = true ∧
      TIPOS_has (req.body.tipo.or old.tipo) = false)) :
    (router_put f now id req w).world.disk
      = putDisk req old (req.body.tipo.or old.tipo) w.disk := by
  simp only [router_put, hf, hsel, handleAnuncioUpdate, Bool.false_eq_true, if_false]
  rw [if_neg hkind]
  have hErr : ∀ (v : JsVal) (b : Bool) (d : Disk), cleanupByReqFile req v b d = d := by
    intro v b d
    simp [cleanupByReqFile, Req.file, Req.filesLength]
  by_cases h2 : (toBool (merge req.body.activo (.num old.activo))).getD false = true ∧
      f.deactivate = true
  · rw [if_pos h2]
    simp only [hErr]
    rfl
  rw [if_neg h2]
  by_cases h3 : f.write = true
  · rw [if_pos h3]
    simp only [hErr]
    rfl
  rw [if_neg h3]
  by_cases h4 : f.reread = true
  · rw [if_pos h4]
    rfl
  · rw [if_neg h4]
    rfl

/-- Past the kind check, the row PUT leaves under the target id stores either the old
primary image path (a statement failed) or the one the UPDATE was built with. -/
theorem router_put_imagen_url (f : Faults) (now id : Nat) (req : Req) (w : World) (old : Row)
    (hf : f.lookup = false) (hsel : selectById id w.rows = some old)
    (hkind : ¬ ((req.body.tipo.or old.tipo).truthy = true ∧
      TIPOS_has (req.body.tipo.or old.tipo) = false)) :
    ∃ cur, selectById id (router_put f now id req w).world.rows = some cur ∧
      (cur.imagen_url = old.imagen_url ∨ cur.imagen_url = putImagenUrl req old) ∧
      ((router_put f now id req w).status = 200 → cur.imagen_url = putImagenUrl req old) := by
  have hid := selectById_id hsel
  have hsel1 : selectById id
      (if (toBool (merge req.body.activo (.num old.activo))).getD false = true
        then deactivateOthers now (some id) w.rows else w.rows) = some old := by
    split
    · rw [selectById_deactivateOthers_some, hsel]
    · exact hsel
  simp only [router_put, hf, hsel, handleAnuncioUpdate, Bool.false_eq_true, if_false]
  rw [if_neg hkind]
  by_cases h2 : (toBool (merge req.body.activo (.num old.activo))).getD false = true ∧
      f.deactivate = true
  · rw [if_pos h2]
    exact ⟨old, hsel, Or.inl rfl, fun h => by simp at h⟩
  rw [if_neg h2]
  by_cases h3 : f.write = true
  · rw [if_pos h3]
    exact ⟨old, hsel1, Or.inl rfl, fun h => by simp at h⟩
  rw [if_neg h3]
  by_cases h4 : f.reread = true
  · rw [if_pos h4]
    dsimp only
    rw [selectById_map id _ (by intro r; split <;> rfl), hsel1]
    simp only [Option.map_some', hid, beq_self_eq_true, if_true]
    exact ⟨_, rfl, Or.inr rfl, fun h => by simp at h⟩
  · rw [if_neg h4]
    dsimp only
    rw [selectById_map id _ (by intro r; split <;> rfl), hsel1]
    simp only [Option.map_some', hid, beq_self_eq_true, if_true]
    exact ⟨_, rfl, Or.inr rfl, fun _ => rfl⟩

/-- C25.  For a full update of an existing record whose kind passes the check: when a
primary image is uploaded, the file named by the old `imagen_url` is not on disk
afterwards whatever the later statements do, and if the answer is 200 the row read back
stores the path of the uploaded file; when none is uploaded, every file of
`uploads/anuncios` is still on disk and the row under the target id stores the old
path. -/
theorem put_primary_image (f : Faults) (now id : Nat) (req : Req) (w : World) (old : Row)
    (hf : f.lookup = false) (hsel : selectById id w.rows = some old)
    (hkind : ¬ ((req.body.tipo.or old.tipo).truthy = true ∧
      TIPOS_has (req.body.tipo.or old.tipo) = false)) :
    (∀ fn, primaryFile req = some fn →
      (∀ p, old.imagen_url = .str p → p ≠ "" →
        (UploadDir.anuncios, basename p) ∉ (router_put f now id req w).world.disk) ∧
      ((router_put f now id req w).status = 200 →
        ∃ new, selectById id (router_put f now id req w).world.rows = some new ∧
          new.imagen_url = .str (anunciosPath fn))) ∧
    (primaryFile req = none →
      (∀ fn, (UploadDir.anuncios, fn) ∈ w.disk →
        (UploadDir.anuncios, fn) ∈ (router_put f now id req w).world.disk) ∧
      ∃ cur, selectById id (router_put f now id req w).world.rows = some cur ∧
        cur.imagen_url = old.imagen_url) := by
  have hdisk := router_put_disk f now id req w old hf hsel hkind
  obtain ⟨cur, hcur, himg, hok⟩ := router_put_imagen_url f now id req w old hf hsel hkind
  refine ⟨?_, ?_⟩
  · intro fn hfn
    refine ⟨?_, ?_⟩
    · intro p hp hne hmem
      rw [hdisk] at hmem
      have ht : old.imagen_url.truthy = true := by simp [hp, JsVal.truthy, hne]
      have hd1 : (UploadDir.anuncios, basename p) ∈ deleteImageFile old.imagen_url false w.disk := by
        simp only [putDisk, hfn, ht, if_true] at hmem
        split at hmem
        · split at hmem
          · exact mem_of_mem_deleteCarouselImages hmem
          · exact hmem
        · split at hmem
          · exact mem_of_mem_deleteCarouselImages hmem
          · exact hmem
      rw [hp] at hd1
      simp only [deleteImageFile, hne, if_false] at hd1
      exact not_mem_unlinkIfExists _ _ hd1
    · intro hs
      refine ⟨cur, hcur, ?_⟩
      rw [hok hs]
      simp [putImagenUrl, hfn]
  · intro hnone
    refine ⟨?_, ?_⟩
    · intro fn hfn
      rw [hdisk]
      simp only [putDisk, hnone]
      split
      · split
        · exact anuncios_mem_deleteCarouselImages _ _ _ hfn
        · exact hfn
      · split
        · exact anuncios_mem_deleteCarouselImages _ _ _ hfn
        · exact hfn
    · refine ⟨cur, hcur, ?_⟩
      rcases himg with h | h
      · exact h
      · rw [h]
        simp [putImagenUrl, hnone]

/-- Record 1 of `oneImageWorld` gets a new primary image: the old file is gone both when
the UPDATE fails and when it succeeds, and on success the new path is stored. -/
theorem put_primary_image_witness :
    (router_put { Faults.none with write := true } 9 1 newPrimaryReq
      (uploadFields newPrimaryReq oneImageWorld)).status = 500 ∧
    (UploadDir.anuncios, basename "/uploads/anuncios/anuncio-1-a.png") ∉
      (router_put { Faults.none with write := true } 9 1 newPrimaryReq
        (uploadFields newPrimaryReq oneImageWorld)).world.disk ∧
    (router_put Faults.none 9 1 newPrimaryReq
      (uploadFields newPrimaryReq oneImageWorld)).world.disk
      = [(UploadDir.anuncios, "anuncio-5-i.png")] ∧
    (selectById 1 (router_put Faults.none 9 1 newPrimaryReq
      (uploadFields newPrimaryReq oneImageWorld)).world.rows).map (fun r => r.imagen_url)
      = some (.str "/uploads/anuncios/anuncio-5-i.png") :=
  ⟨by decide,
   ((put_primary_image { Faults.none with write := true } 9 1 newPrimaryReq
      (uploadFields newPrimaryReq oneImageWorld)
      (sampleRow 1 "banner" 1 (.str "/uploads/anuncios/anuncio-1-a.png"))
      rfl (by decide) (by decide)).1 "anuncio-5-i.png" rfl).1
      "/uploads/anuncios/anuncio-1-a.png" rfl (by decide),
   by decide, by decide⟩

end Anuncios

namespace ContactoDb

/-! ## The contact code -/

theorem toDigitsCore_suffix (fuel n : Nat) (acc : List Char) :
    ∃ pre, Nat.toDigitsCore 10 fuel n acc = pre ++ acc := by
  induction fuel generalizing n acc with
  | zero => exact ⟨[], rfl⟩
  | succ k ih =>
    simp only [Nat.toDigitsCore]
    split
    · exact ⟨[Nat.digitChar (n % 10)], rfl⟩
    · obtain ⟨pre, hpre⟩ := ih (n / 10) (Nat.digitChar (n % 10) :: acc)
      exact ⟨pre ++ [Nat.digitChar (n % 10)], by rw [hpre]; simp⟩

theorem toDigitsCore_succ_suffix (fuel n : Nat) (acc : List Char) :
    ∃ pre, Nat.toDigitsCore 10 (fuel + 1) n acc = pre ++ Nat.digitChar (n % 10) :: acc := by
  rw [Nat.toDigitsCore]
  split
  · exact ⟨[], rfl⟩
  · exact toDigitsCore_suffix _ _ _

theorem jsString_last_two (n : Nat) (h : 10 ≤ n) :
    sliceLast2 (jsString n) = [Nat.digitChar (n / 10 % 10), Nat.digitChar (n % 10)] := by
  have hshape : ∃ pre, jsString n
      = pre ++ [Nat.digitChar (n / 10 % 10), Nat.digitChar (n % 10)] := by
    unfold jsString Nat.toDigits
    obtain ⟨k, rfl⟩ : ∃ k, n = k + 1 := ⟨n - 1, by omega⟩
    have h1 : ¬ (k + 1) / 10 = 0 := by omega
    rw [Nat.toDigitsCore]
    rw [if_neg h1]
    exact toDigitsCore_succ_suffix k ((k + 1) / 10) [Nat.digitChar ((k + 1) % 10)]
  obtain ⟨pre, hpre⟩ := hshape
  rw [hpre]
  simp [sliceLast2]

theorem padStart2_two_digits (d : Nat) (h : d < 100) :
    padStart2 (jsString d) = [Nat.digitChar (d / 10), Nat.digitChar (d % 10)] := by
  interval_cases d <;> rfl

theorem charAt_chars (r : Nat) (h : r < 36) :
    ∃ c, charAt chars r = [c] ∧ (c.isUpper || c.isDigit) = true := by
  interval_cases r <;> exact ⟨_, rfl, by decide⟩

/-- C23.  For a clock whose year has at least two digits, a month index below 12, a day
of the month between 1 and 31 and three random indices below 36,
`generarCodigoContacto` returns twelve characters: `CNT`, the last two digits of the
year, the month number and the day in two digits each, and three characters that are
capital letters or digits. -/
theorem generarCodigoContacto_format (year month day r1 r2 r3 : Nat)
    (hy : 10 ≤ year) (hm : month < 12) (hd1 : 1 ≤ day) (hd2 : day ≤ 31)
    (h1 : r1 < 36) (h2 : r2 < 36) (h3 : r3 < 36) :
    (generarCodigoContacto year month day r1 r2 r3).data.length = 12 ∧
    ∃ c1 c2 c3 : Char,
      (c1.isUpper || c1.isDigit) = true ∧ (c2.isUpper || c2.isDigit) = true ∧
      (c3.isUpper || c3.isDigit) = true ∧
      (generarCodigoContacto year month day r1 r2 r3).data
        = ['C', 'N', 'T',
           Nat.digitChar (year / 10 % 10), Nat.digitChar (year % 10),
           Nat.digitChar ((month + 1) / 10), Nat.digitChar ((month + 1) % 10),
           Nat.digitChar (day / 10), Nat.digitChar (day % 10),
           c1, c2, c3] := by
  obtain ⟨c1, hc1, ha1⟩ := charAt_chars r1 h1
  obtain ⟨c2, hc2, ha2⟩ := charAt_chars r2 h2
  obtain ⟨c3, hc3, ha3⟩ := charAt_chars r3 h3
  have hdata : (generarCodigoContacto year month day r1 r2 r3).data
      = ['C', 'N', 'T',
         Nat.digitChar (year / 10 % 10), Nat.digitChar (year % 10),
         Nat.digitChar ((month + 1) / 10), Nat.digitChar ((month + 1) % 10),
         Nat.digitChar (day / 10), Nat.digitChar (day % 10),
         c1, c2, c3] := by
    simp only [generarCodigoContacto, jsString_last_two year hy,
      padStart2_two_digits (month + 1) (by omega), padStart2_two_digits day (by omega),
      hc1, hc2, hc3]
    rfl
  refine ⟨by rw [hdata]; rfl, c1, c2, c3, ha1, ha2, ha3, hdata⟩

/-- On 5 November 2026 with random indices 0, 25 and 35 the code is `CNT261105AZ9`. -/
theorem generarCodigoContacto_format_witness :
    generarCodigoContacto 2026 10 5 0 25 35 = "CNT261105AZ9" ∧
    (generarCodigoContacto 2026 10 5 0 25 35).data.length = 12 :=
  ⟨by decide,
   (generarCodigoContacto_format 2026 10 5 0 25 35 (by decide) (by decide) (by decide)
      (by decide) (by decide) (by decide) (by decide)).1⟩

end ContactoDb
